import Mathlib

/-!
Verification of the `uuid-vs-autoincreament` benchmark harness.

The Go sources under `internal/bench` are shallowly embedded:

* pure helpers (`ValidateConfig`, `UUIDToBytes`, `BytesToUUID`,
  `FormatResults`, `ChunkBounds`) become pure Lean functions;
* the effectful benchmark runner (`RunAll`, `setupMySQL`, `setupPostgres`
  and the five `bench*` variants in `run.go`) becomes a state-passing
  computation in the monad `M` below.  Database driver calls may fail;
  failure is injected by an oracle `Env.fail` indexed by a call counter.
  Random UUID generation and clock readings are likewise supplied by
  oracles in `Env`, so every run is a deterministic function of `Env`.
  The state carries the three MySQL tables and the two PostgreSQL tables
  as association lists (key, payload), plus a ghost event log recording
  phase entries and the SQL operations attempted; the log is
  instrumentation only and feeds no data back into the computation.

Go `int` is modelled as `Int`, durations (`float64` seconds) as `ℚ`,
`[16]byte` UUID values as length-16 lists of bytes, and fallible Go
returns as `Except String`.
-/

/-- Errors are modelled by their message string. -/
abbrev Err := String

/-- Embeds `Config` from `bench.go`: row/lookup counts plus connection
parameters for the two engines. -/
structure Config where
  Rows : Int
  Lookups : Int
  MySQLHost : String
  MySQLPort : Int
  MySQLUser : String
  MySQLPassword : String
  MySQLDB : String
  PGHost : String
  PGPort : Int
  PGUser : String
  PGPassword : String
  PGDB : String

/-- Embeds `Result` from `bench.go`: one measurement record per variant. -/
structure Result where
  DB : String
  Table : String
  InsertRows : Int
  InsertSeconds : ℚ
  PointLookupCount : Int
  PointSeconds : ℚ
  RangeSeconds : ℚ

/-- Embeds `ValidateConfig` (bench.go lines 75-83): rejects nonpositive
row or lookup counts, in that order, and inspects no other field. -/
def ValidateConfig (cfg : Config) : Except Err Unit :=
  if cfg.Rows ≤ 0 then .error "rows must be > 0"
  else if cfg.Lookups ≤ 0 then .error "lookups must be > 0"
  else .ok ()

/-- A `uuid.UUID` value (`[16]byte` in Go): a byte list of length 16. -/
def UUID := { b : List Nat // b.length = 16 }

instance : DecidableEq UUID := fun a b =>
  decidable_of_iff (a.val = b.val) Subtype.ext_iff.symm

/-- Embeds `UUIDToBytes` (bench.go lines 87-91): copy the 16 bytes out. -/
def UUIDToBytes (u : UUID) : List Nat := u.val

/-- Embeds `BytesToUUID` (bench.go lines 95-102): restore a UUID from a
byte slice, rejecting any length other than 16. -/
def BytesToUUID (b : List Nat) : Except Err UUID :=
  if h : b.length = 16 then .ok ⟨b, h⟩
  else .error ("uuid bytes length must be 16, got " ++ toString b.length)

/-- Left-pads a digit string with zeros to width 6; helper for the
fixed six-decimal rendering of `fmt.Sprintf "%.6f"`. -/
def padZeros6 (s : String) : String :=
  String.mk (List.replicate (6 - s.length) '0') ++ s

/-- Renders a nonnegative rational as a fixed-point decimal with six
fractional digits, round-half-up; model of Go `%.6f` on a nonnegative
`float64` (exact on the inputs appearing in the spec). -/
def fmt6abs (q : ℚ) : String :=
  let scaled : Int := ⌊q * 1000000 + 1 / 2⌋
  toString (scaled / 1000000) ++ "." ++ padZeros6 (toString (scaled % 1000000).toNat)

/-- Model of `fmt.Sprintf "%.6f"` on a duration in seconds. -/
def fmt6 (q : ℚ) : String :=
  if q < 0 then "-" ++ fmt6abs (-q) else fmt6abs q

/-- One CSV data line of `FormatResults` (bench.go lines 112-121),
including the trailing newline written by the loop body. -/
def resultLine (r : Result) : String :=
  r.DB ++ "," ++ r.Table ++ "," ++ toString r.InsertRows ++ "," ++
    fmt6 r.InsertSeconds ++ "," ++ toString r.PointLookupCount ++ "," ++
    fmt6 r.PointSeconds ++ "," ++ fmt6 r.RangeSeconds ++ "\n"

/-- Model of `strings.TrimSuffix s "\n"`: drop one trailing newline. -/
def trimNewline (s : String) : String :=
  if s.data.getLast? = some '\n' then String.mk s.data.dropLast else s

/-- Embeds `FormatResults` (bench.go lines 105-124): banner line, CSV
header, one line per record, with the final newline trimmed. -/
def FormatResults (results : List Result) : String :=
  trimNewline ("=== Benchmark Results ===\n" ++
    "db,table,insert_rows,insert_sec,point_lookups,point_sec,range_or_orderby_sec\n" ++
    String.join (results.map resultLine))

/-- The loop of `ChunkBounds` (`for i := 0; i < total; i += chunk`),
written with explicit fuel so that it is structurally recursive; the
wrapper passes `total.toNat` fuel, which suffices because every
iteration advances `i` by `chunk ≥ 1`. -/
def chunkLoop (total chunk : Int) : Nat → Int → List (Int × Int)
  | 0, _ => []
  | fuel + 1, i =>
    if i < total then
      let e0 := i + chunk
      let e := if e0 > total then total else e0
      (i, e) :: chunkLoop total chunk fuel (i + chunk)
    else []

/-- Embeds `ChunkBounds` (bench.go lines 128-142): split `[0, total)`
into `[start, end)` chunks of size `chunk` (last one possibly short);
empty for nonpositive arguments. -/
def ChunkBounds (total chunk : Int) : List (Int × Int) :=
  if total ≤ 0 || chunk ≤ 0 then [] else chunkLoop total chunk total.toNat 0

/-- The point-lookup sample (run.go, e.g. lines 162-165): the key list
truncated to the first `lookups` entries when it is longer. -/
def takeSample {κ : Type} (ids : List κ) (lookups : Int) : List κ :=
  if (ids.length : Int) > lookups then ids.take lookups.toNat else ids

/-- Position of the range lower bound: `len(ids)/4` (run.go line 186). -/
def rangeLoIndex (n : Nat) : Nat := n / 4

/-- Position of the range upper bound: `(len(ids)*3)/4` (run.go line 187). -/
def rangeHiIndex (n : Nat) : Nat := n * 3 / 4

/-- Embeds the bound selection of the auto-increment range phase
(run.go lines 184-188): the 25th/75th-percentile elements of the key
list, or `(0, 0)` when the list is empty. -/
def autoRangeBounds (ids : List Int) : Int × Int :=
  if 0 < ids.length then
    (ids.getD (rangeLoIndex ids.length) 0, ids.getD (rangeHiIndex ids.length) 0)
  else (0, 0)

/-- Row count of `SELECT COUNT(*) ... WHERE id BETWEEN lo AND hi`
(inclusive bounds) over a key list. -/
def betweenCountVal (keys : List Int) (lo hi : Int) : Nat :=
  (keys.filter fun k => decide (lo ≤ k) && decide (k ≤ hi)).length

/-- Did a fallible computation succeed? -/
def exceptIsOk {ε α : Type} : Except ε α → Bool
  | .ok _ => true
  | .error _ => false

/-- The SQL operations the harness issues, as recorded in the ghost
log.  Arguments that later theorems inspect (the read-back id list, the
BETWEEN bounds, the ORDER BY/LIMIT cap and the number of rows the scan
returned) are carried in the event. -/
inductive SQLOp where
  | execStmt (stmt : String)
  | prepareStmt (stmt : String)
  | insert (stmt : String)
  | selectIds (stmt : String) (ids : List Int)
  | pointLookup (stmt : String)
  | between (stmt : String) (lo hi : Int)
  | orderLimit (stmt : String) (limit : Nat) (got : Nat)
deriving DecidableEq

/-- Ghost log events: entry into a setup/benchmark phase, or an
attempted database call. -/
inductive Ev where
  | phase (name : String)
  | call (op : SQLOp)
deriving DecidableEq

/-- The three MySQL benchmark tables (schema of `setupMySQL`), stored as
(key, payload) rows in insertion order, plus the AUTO_INCREMENT counter
of `bench_auto`. -/
structure MySQLTables where
  auto : List (Int × String)
  autoSeq : Int
  uuidChar : List (String × String)
  uuidBin : List (List Nat × String)
deriving DecidableEq

/-- The two PostgreSQL benchmark tables (schema of `setupPostgres`),
plus the BIGSERIAL counter of `bench_auto`. -/
structure PGTables where
  auto : List (Int × String)
  autoSeq : Int
  uuid : List (UUID × String)
deriving DecidableEq

/-- Program state: both engines' tables, the oracle counters, and the
ghost event log. -/
structure St where
  mysql : MySQLTables
  pg : PGTables
  callIdx : Nat
  timeIdx : Nat
  uuidIdx : Nat
  log : List Ev
deriving DecidableEq

/-- The environment a run is deterministic in: the fault oracle for
database calls (`some e` makes the driver return error `e`), the clock,
and the random-UUID streams used by `uuid.NewString` / `uuid.New`. -/
structure Env where
  fail : Nat → Option Err
  now : Nat → ℚ
  newUUIDStr : Nat → String
  newUUID : Nat → UUID

/-- The computation monad of the embedded runner: state passing with
short-circuiting errors.  The state at the failure point is returned
alongside the error so that the ghost log of an aborted run is
observable. -/
def M (α : Type) : Type := St → Except Err α × St

instance : Monad M where
  pure a := fun s => (.ok a, s)
  bind x f := fun s =>
    match x s with
    | (.ok a, s') => f a s'
    | (.error e, s') => (.error e, s')

/-- Ghost marker: a setup/benchmark phase was entered. -/
def traceEnter (name : String) : M Unit := fun s =>
  (.ok (), { s with log := s.log ++ [Ev.phase name] })

/-- Model of `time.Now()` / `time.Since`: read the oracle clock. -/
def readClock (env : Env) : M ℚ := fun s =>
  (.ok (env.now s.timeIdx), { s with timeIdx := s.timeIdx + 1 })

/-- Model of `uuid.NewString()`: next string from the oracle stream. -/
def genUUIDStr (env : Env) : M String := fun s =>
  (.ok (env.newUUIDStr s.uuidIdx), { s with uuidIdx := s.uuidIdx + 1 })

/-- Model of `uuid.New()`: next UUID from the oracle stream. -/
def genUUID (env : Env) : M UUID := fun s =>
  (.ok (env.newUUID s.uuidIdx), { s with uuidIdx := s.uuidIdx + 1 })

/-- A fallible database call that, on success, applies `f` to the
state: models `ExecContext` / `PrepareContext` (with `f = id`).  The
fault oracle is consulted at the current call index; the attempt is
always logged. -/
def dbExec (env : Env) (op : SQLOp) (f : St → St) : M Unit := fun s =>
  let s1 := { s with callIdx := s.callIdx + 1, log := s.log ++ [Ev.call op] }
  match env.fail s.callIdx with
  | some e => (.error e, s1)
  | none => (.ok (), f s1)

/-- Models `SELECT id FROM ... ORDER BY id` plus the scan loop that
collects every id (run.go lines 146-159): returns `sel` of the current
state, which the benchmark instantiates with the sorted key list. -/
def dbSelectIds (env : Env) (stmt : String) (sel : St → List Int) : M (List Int) := fun s =>
  let ids := sel s
  let s1 := { s with callIdx := s.callIdx + 1,
                     log := s.log ++ [Ev.call (SQLOp.selectIds stmt ids)] }
  match env.fail s.callIdx with
  | some e => (.error e, s1)
  | none => (.ok ids, s1)

/-- Models `SELECT id FROM ... ORDER BY id LIMIT limit` plus the scan
loop reading every returned key (run.go lines 250-263 and analogues):
returns the first `limit` keys in key order and logs how many rows the
scan returned. -/
def dbOrderScan {κ : Type} (env : Env) (stmt : String) (limit : Nat)
    (sortedKeys : St → List κ) : M (List κ) := fun s =>
  let out := (sortedKeys s).take limit
  let s1 := { s with callIdx := s.callIdx + 1,
                     log := s.log ++ [Ev.call (SQLOp.orderLimit stmt limit out.length)] }
  match env.fail s.callIdx with
  | some e => (.error e, s1)
  | none => (.ok out, s1)

/-- Models the aggregate `SELECT COUNT(*) ... WHERE id BETWEEN lo AND hi`
query (run.go line 192 and analogue). -/
def dbBetweenCount (env : Env) (stmt : String) (lo hi : Int)
    (keys : St → List Int) : M Int := fun s =>
  let c : Int := (betweenCountVal (keys s) lo hi : Int)
  let s1 := { s with callIdx := s.callIdx + 1,
                     log := s.log ++ [Ev.call (SQLOp.between stmt lo hi)] }
  match env.fail s.callIdx with
  | some e => (.error e, s1)
  | none => (.ok c, s1)

/-- Models `QueryRowContext(...).Scan(&payload)` for a point lookup:
driver faults come from the oracle, and a missing key yields the
`sql.ErrNoRows` error exactly as `Scan` does. -/
def dbPointLookup {κ : Type} [DecidableEq κ] (env : Env) (stmt : String) (key : κ)
    (tbl : St → List (κ × String)) : M String := fun s =>
  let s1 := { s with callIdx := s.callIdx + 1,
                     log := s.log ++ [Ev.call (SQLOp.pointLookup stmt)] }
  match env.fail s.callIdx with
  | some e => (.error e, s1)
  | none =>
    match (tbl s1).find? (fun p => decide (p.1 = key)) with
    | some p => (.ok p.2, s1)
    | none => (.error "sql: no rows in result set", s1)

/-- Effect of `INSERT INTO bench_auto (payload) VALUES (?)` on MySQL:
the engine assigns the next AUTO_INCREMENT key. -/
def insertAutoRowMySQL (payload : String) (s : St) : St :=
  let id := s.mysql.autoSeq + 1
  { s with mysql := { s.mysql with auto := s.mysql.auto ++ [(id, payload)], autoSeq := id } }

/-- Effect of `INSERT INTO bench_auto (payload) VALUES ($1)` on
PostgreSQL: the engine assigns the next BIGSERIAL key. -/
def insertAutoRowPG (payload : String) (s : St) : St :=
  let id := s.pg.autoSeq + 1
  { s with pg := { s.pg with auto := s.pg.auto ++ [(id, payload)], autoSeq := id } }

/-- Effect of inserting a row into MySQL `bench_uuid_char`. -/
def insertRowUUIDChar (id : String) (payload : String) (s : St) : St :=
  { s with mysql := { s.mysql with uuidChar := s.mysql.uuidChar ++ [(id, payload)] } }

/-- Effect of inserting a row into MySQL `bench_uuid_bin`. -/
def insertRowUUIDBin (id : List Nat) (payload : String) (s : St) : St :=
  { s with mysql := { s.mysql with uuidBin := s.mysql.uuidBin ++ [(id, payload)] } }

/-- Effect of inserting a row into PostgreSQL `bench_uuid`. -/
def insertRowPGUUID (id : UUID) (payload : String) (s : St) : St :=
  { s with pg := { s.pg with uuid := s.pg.uuid ++ [(id, payload)] } }

/-- The insert loop of the auto-increment variants (run.go lines
138-142 and 354-358): `rows` single-row inserts with payload `p-i`. -/
def insertLoopAuto (env : Env) (stmt : String) (upd : String → St → St) :
    Nat → Int → M Unit
  | 0, _ => pure ()
  | n + 1, i => do
    dbExec env (SQLOp.insert stmt) (upd ("p-" ++ toString i))
    insertLoopAuto env stmt upd n (i + 1)

/-- The insert loop of the UUID variants (run.go lines 219-225 and
analogues): generate a fresh key per row, insert it with payload `p-i`,
and retain the generated keys in order. -/
def insertLoopKeyed {κ : Type} (env : Env) (stmt : String) (gen : M κ)
    (upd : κ → String → St → St) : Nat → Int → List κ → M (List κ)
  | 0, _, acc => pure acc
  | n + 1, i, acc => do
    let k ← gen
    dbExec env (SQLOp.insert stmt) (upd k ("p-" ++ toString i))
    insertLoopKeyed env stmt gen upd n (i + 1) (acc ++ [k])

/-- The point-lookup loop (run.go lines 175-180 and analogues): one
exact-match primary-key query per sampled key, result discarded. -/
def lookupLoop {κ : Type} [DecidableEq κ] (env : Env) (stmt : String)
    (tbl : St → List (κ × String)) : List κ → M Unit
  | [] => pure ()
  | k :: rest => do
    let _ ← dbPointLookup env stmt k tbl
    lookupLoop env stmt tbl rest

/-- The statement loop of `setupMySQL` / `setupPostgres` (run.go lines
97-103 and 120-125): execute each DDL statement in order, wrapping the
first failure with the engine-naming message. -/
def execStmts (env : Env) (wrap : String) : List (String × (St → St)) → M Unit
  | [] => pure ()
  | (stmt, f) :: rest => fun s =>
    match dbExec env (SQLOp.execStmt stmt) f s with
    | (.ok _, s1) => execStmts env wrap rest s1
    | (.error e, s1) => (.error (wrap ++ e), s1)

/-- The DDL sequence of `setupMySQL` (run.go lines 80-96) with the
table effects of each statement: drops clear the table, creates clear
it and reset the AUTO_INCREMENT counter. -/
def mysqlSetupStmts : List (String × (St → St)) :=
  [("DROP TABLE IF EXISTS bench_auto",
      fun s => { s with mysql := { s.mysql with auto := [] } }),
   ("DROP TABLE IF EXISTS bench_uuid_char",
      fun s => { s with mysql := { s.mysql with uuidChar := [] } }),
   ("DROP TABLE IF EXISTS bench_uuid_bin",
      fun s => { s with mysql := { s.mysql with uuidBin := [] } }),
   ("CREATE TABLE bench_auto (id BIGINT NOT NULL AUTO_INCREMENT PRIMARY KEY, payload VARCHAR(100) NOT NULL) ENGINE=InnoDB",
      fun s => { s with mysql := { s.mysql with auto := [], autoSeq := 0 } }),
   ("CREATE TABLE bench_uuid_char (id CHAR(36) NOT NULL PRIMARY KEY, payload VARCHAR(100) NOT NULL) ENGINE=InnoDB",
      fun s => { s with mysql := { s.mysql with uuidChar := [] } }),
   ("CREATE TABLE bench_uuid_bin (id BINARY(16) NOT NULL PRIMARY KEY, payload VARCHAR(100) NOT NULL) ENGINE=InnoDB",
      fun s => { s with mysql := { s.mysql with uuidBin := [] } })]

/-- The DDL sequence of `setupPostgres` (run.go lines 108-119). -/
def pgSetupStmts : List (String × (St → St)) :=
  [("DROP TABLE IF EXISTS bench_auto",
      fun s => { s with pg := { s.pg with auto := [] } }),
   ("DROP TABLE IF EXISTS bench_uuid",
      fun s => { s with pg := { s.pg with uuid := [] } }),
   ("CREATE TABLE bench_auto (id BIGSERIAL PRIMARY KEY, payload TEXT NOT NULL)",
      fun s => { s with pg := { s.pg with auto := [], autoSeq := 0 } }),
   ("CREATE TABLE bench_uuid (id UUID PRIMARY KEY, payload TEXT NOT NULL)",
      fun s => { s with pg := { s.pg with uuid := [] } })]

/-- Embeds `setupMySQL` (run.go lines 79-104). -/
def setupMySQL (env : Env) : M Unit := do
  traceEnter "setupMySQL"
  execStmts env "mysql setup failed: " mysqlSetupStmts

/-- Embeds `setupPostgres` (run.go lines 107-126). -/
def setupPostgres (env : Env) : M Unit := do
  traceEnter "setupPostgres"
  execStmts env "postgres setup failed: " pgSetupStmts

/-- Lexicographic byte order, the index order of `BINARY(16)` keys. -/
def bytesLe : List Nat → List Nat → Bool
  | [], _ => true
  | _ :: _, [] => false
  | a :: as, b :: bs => if a < b then true else if b < a then false else bytesLe as bs

instance : DecidableRel (fun a b : List Nat => bytesLe a b = true) :=
  fun _ _ => instDecidableEqBool _ _

instance : DecidableRel (fun a b : UUID => bytesLe a.val b.val = true) :=
  fun _ _ => instDecidableEqBool _ _

/-- Embeds `benchMySQLAuto` (run.go lines 129-206). -/
def benchMySQLAuto (env : Env) (rows lookups : Int) : M Result := do
  traceEnter "benchMySQLAuto"
  dbExec env (SQLOp.prepareStmt "INSERT INTO bench_auto (payload) VALUES (?)") id
  let t0 ← readClock env
  insertLoopAuto env "INSERT INTO bench_auto (payload) VALUES (?)" insertAutoRowMySQL rows.toNat 0
  let t1 ← readClock env
  let ids ← dbSelectIds env "SELECT id FROM bench_auto ORDER BY id"
    (fun s => List.insertionSort (· ≤ ·) (s.mysql.auto.map Prod.fst))
  let sample := takeSample ids lookups
  dbExec env (SQLOp.prepareStmt "SELECT payload FROM bench_auto WHERE id = ?") id
  let t2 ← readClock env
  lookupLoop env "SELECT payload FROM bench_auto WHERE id = ?" (fun s => s.mysql.auto) sample
  let t3 ← readClock env
  let lohi := autoRangeBounds ids
  let t4 ← readClock env
  let _ ← dbBetweenCount env "SELECT COUNT(*) FROM bench_auto WHERE id BETWEEN ? AND ?"
    lohi.1 lohi.2 (fun s => s.mysql.auto.map Prod.fst)
  let t5 ← readClock env
  pure { DB := "mysql", Table := "bench_auto", InsertRows := rows,
         InsertSeconds := t1 - t0, PointLookupCount := (sample.length : Int),
         PointSeconds := t3 - t2, RangeSeconds := t5 - t4 }

/-- Embeds `benchMySQLUUIDChar` (run.go lines 209-274). -/
def benchMySQLUUIDChar (env : Env) (rows lookups : Int) : M Result := do
  traceEnter "benchMySQLUUIDChar"
  dbExec env (SQLOp.prepareStmt "INSERT INTO bench_uuid_char (id, payload) VALUES (?, ?)") id
  let t0 ← readClock env
  let ids ← insertLoopKeyed env "INSERT INTO bench_uuid_char (id, payload) VALUES (?, ?)"
    (genUUIDStr env) insertRowUUIDChar rows.toNat 0 []
  let t1 ← readClock env
  let sample := takeSample ids lookups
  dbExec env (SQLOp.prepareStmt "SELECT payload FROM bench_uuid_char WHERE id = ?") id
  let t2 ← readClock env
  lookupLoop env "SELECT payload FROM bench_uuid_char WHERE id = ?" (fun s => s.mysql.uuidChar) sample
  let t3 ← readClock env
  let t4 ← readClock env
  let _ ← dbOrderScan env "SELECT id FROM bench_uuid_char ORDER BY id LIMIT 10000" 10000
    (fun s => List.insertionSort (· ≤ ·) (s.mysql.uuidChar.map Prod.fst))
  let t5 ← readClock env
  pure { DB := "mysql", Table := "bench_uuid_char", InsertRows := rows,
         InsertSeconds := t1 - t0, PointLookupCount := (sample.length : Int),
         PointSeconds := t3 - t2, RangeSeconds := t5 - t4 }

/-- Embeds `benchMySQLUUIDBin` (run.go lines 277-342). -/
def benchMySQLUUIDBin (env : Env) (rows lookups : Int) : M Result := do
  traceEnter "benchMySQLUUIDBin"
  dbExec env (SQLOp.prepareStmt "INSERT INTO bench_uuid_bin (id, payload) VALUES (?, ?)") id
  let t0 ← readClock env
  let ids ← insertLoopKeyed env "INSERT INTO bench_uuid_bin (id, payload) VALUES (?, ?)"
    (do let u ← genUUID env; pure (UUIDToBytes u)) insertRowUUIDBin rows.toNat 0 []
  let t1 ← readClock env
  let sample := takeSample ids lookups
  dbExec env (SQLOp.prepareStmt "SELECT payload FROM bench_uuid_bin WHERE id = ?") id
  let t2 ← readClock env
  lookupLoop env "SELECT payload FROM bench_uuid_bin WHERE id = ?" (fun s => s.mysql.uuidBin) sample
  let t3 ← readClock env
  let t4 ← readClock env
  let _ ← dbOrderScan env "SELECT id FROM bench_uuid_bin ORDER BY id LIMIT 10000" 10000
    (fun s => List.insertionSort (fun a b => bytesLe a b = true) (s.mysql.uuidBin.map Prod.fst))
  let t5 ← readClock env
  pure { DB := "mysql", Table := "bench_uuid_bin", InsertRows := rows,
         InsertSeconds := t1 - t0, PointLookupCount := (sample.length : Int),
         PointSeconds := t3 - t2, RangeSeconds := t5 - t4 }

/-- Embeds `benchPGAuto` (run.go lines 345-421). -/
def benchPGAuto (env : Env) (rows lookups : Int) : M Result := do
  traceEnter "benchPGAuto"
  dbExec env (SQLOp.prepareStmt "INSERT INTO bench_auto (payload) VALUES ($1)") id
  let t0 ← readClock env
  insertLoopAuto env "INSERT INTO bench_auto (payload) VALUES ($1)" insertAutoRowPG rows.toNat 0
  let t1 ← readClock env
  let ids ← dbSelectIds env "SELECT id FROM bench_auto ORDER BY id"
    (fun s => List.insertionSort (· ≤ ·) (s.pg.auto.map Prod.fst))
  let sample := takeSample ids lookups
  dbExec env (SQLOp.prepareStmt "SELECT payload FROM bench_auto WHERE id = $1") id
  let t2 ← readClock env
  lookupLoop env "SELECT payload FROM bench_auto WHERE id = $1" (fun s => s.pg.auto) sample
  let t3 ← readClock env
  let lohi := autoRangeBounds ids
  let t4 ← readClock env
  let _ ← dbBetweenCount env "SELECT COUNT(*) FROM bench_auto WHERE id BETWEEN $1 AND $2"
    lohi.1 lohi.2 (fun s => s.pg.auto.map Prod.fst)
  let t5 ← readClock env
  pure { DB := "postgres", Table := "bench_auto", InsertRows := rows,
         InsertSeconds := t1 - t0, PointLookupCount := (sample.length : Int),
         PointSeconds := t3 - t2, RangeSeconds := t5 - t4 }

/-- Embeds `benchPGUUID` (run.go lines 424-489). -/
def benchPGUUID (env : Env) (rows lookups : Int) : M Result := do
  traceEnter "benchPGUUID"
  dbExec env (SQLOp.prepareStmt "INSERT INTO bench_uuid (id, payload) VALUES ($1, $2)") id
  let t0 ← readClock env
  let ids ← insertLoopKeyed env "INSERT INTO bench_uuid (id, payload) VALUES ($1, $2)"
    (genUUID env) insertRowPGUUID rows.toNat 0 []
  let t1 ← readClock env
  let sample := takeSample ids lookups
  dbExec env (SQLOp.prepareStmt "SELECT payload FROM bench_uuid WHERE id = $1") id
  let t2 ← readClock env
  lookupLoop env "SELECT payload FROM bench_uuid WHERE id = $1" (fun s => s.pg.uuid) sample
  let t3 ← readClock env
  let t4 ← readClock env
  let _ ← dbOrderScan env "SELECT id FROM bench_uuid ORDER BY id LIMIT 10000" 10000
    (fun s => List.insertionSort (fun a b : UUID => bytesLe a.val b.val = true) (s.pg.uuid.map Prod.fst))
  let t5 ← readClock env
  pure { DB := "postgres", Table := "bench_uuid", InsertRows := rows,
         InsertSeconds := t1 - t0, PointLookupCount := (sample.length : Int),
         PointSeconds := t3 - t2, RangeSeconds := t5 - t4 }

/-- Embeds `RunAll` (run.go lines 35-76): both schema setups, then the
five variants in fixed order; the first error aborts with no results. -/
def RunAll (env : Env) (cfg : Config) : M (List Result) := do
  setupMySQL env
  setupPostgres env
  let r1 ← benchMySQLAuto env cfg.Rows cfg.Lookups
  let r2 ← benchMySQLUUIDChar env cfg.Rows cfg.Lookups
  let r3 ← benchMySQLUUIDBin env cfg.Rows cfg.Lookups
  let r4 ← benchPGAuto env cfg.Rows cfg.Lookups
  let r5 ← benchPGUUID env cfg.Rows cfg.Lookups
  pure [r1, r2, r3, r4, r5]

/-- Phase entries of the ghost log, in order. -/
def phasesOf (log : List Ev) : List String :=
  log.filterMap fun e => match e with
    | .phase n => some n
    | .call _ => none

/-- Is this event a range/scan-phase query (id read-back, BETWEEN
count, or ORDER BY/LIMIT scan)? -/
def isRangeCall : Ev → Bool
  | .call (.selectIds _ _) => true
  | .call (.between _ _ _) => true
  | .call (.orderLimit _ _ _) => true
  | _ => false

/-- The range/scan-phase queries of a log, in order. -/
def rangeCalls (log : List Ev) : List Ev := log.filter isRangeCall

/-- The all-zero UUID, used as a concrete evaluation point. -/
def uuidZero : UUID := ⟨List.replicate 16 0, rfl⟩

/-- A fault-free environment with a constant clock and a deterministic
UUID stream, used to evaluate the model on concrete inputs. -/
def env0 : Env :=
  { fail := fun _ => none, now := fun _ => 0,
    newUUIDStr := fun n => toString n, newUUID := fun _ => uuidZero }

/-- An environment whose very first database call fails. -/
def envFail0 : Env := { env0 with fail := fun k => if k = 0 then some "boom" else none }

/-- A valid one-row, one-lookup configuration. -/
def cfgOne : Config :=
  { Rows := 1, Lookups := 1, MySQLHost := "127.0.0.1", MySQLPort := 3306,
    MySQLUser := "bench", MySQLPassword := "bench", MySQLDB := "idbench",
    PGHost := "127.0.0.1", PGPort := 5432, PGUser := "bench",
    PGPassword := "bench", PGDB := "idbench" }

/-- An invalid configuration: zero rows. -/
def cfgZeroRows : Config := { cfgOne with Rows := 0 }

/-- Same counts as `cfgOne` but a different host. -/
def cfgAltHost : Config := { cfgOne with MySQLHost := "db.example" }

/-- The empty initial state: empty tables, zeroed counters, empty log. -/
def st0 : St :=
  { mysql := { auto := [], autoSeq := 0, uuidChar := [], uuidBin := [] },
    pg := { auto := [], autoSeq := 0, uuid := [] },
    callIdx := 0, timeIdx := 0, uuidIdx := 0, log := [] }

/-- Ghost-log segment of `setupMySQL` in the fault-free witness run. -/
def logSetupM : List Ev :=
  [Ev.phase "setupMySQL",
   Ev.call (SQLOp.execStmt "DROP TABLE IF EXISTS bench_auto"),
   Ev.call (SQLOp.execStmt "DROP TABLE IF EXISTS bench_uuid_char"),
   Ev.call (SQLOp.execStmt "DROP TABLE IF EXISTS bench_uuid_bin"),
   Ev.call (SQLOp.execStmt "CREATE TABLE bench_auto (id BIGINT NOT NULL AUTO_INCREMENT PRIMARY KEY, payload VARCHAR(100) NOT NULL) ENGINE=InnoDB"),
   Ev.call (SQLOp.execStmt "CREATE TABLE bench_uuid_char (id CHAR(36) NOT NULL PRIMARY KEY, payload VARCHAR(100) NOT NULL) ENGINE=InnoDB"),
   Ev.call (SQLOp.execStmt "CREATE TABLE bench_uuid_bin (id BINARY(16) NOT NULL PRIMARY KEY, payload VARCHAR(100) NOT NULL) ENGINE=InnoDB")]

/-- Ghost-log segment of `setupPostgres` in the witness run. -/
def logSetupP : List Ev :=
  [Ev.phase "setupPostgres",
   Ev.call (SQLOp.execStmt "DROP TABLE IF EXISTS bench_auto"),
   Ev.call (SQLOp.execStmt "DROP TABLE IF EXISTS bench_uuid"),
   Ev.call (SQLOp.execStmt "CREATE TABLE bench_auto (id BIGSERIAL PRIMARY KEY, payload TEXT NOT NULL)"),
   Ev.call (SQLOp.execStmt "CREATE TABLE bench_uuid (id UUID PRIMARY KEY, payload TEXT NOT NULL)")]

/-- Ghost-log segment of `benchMySQLAuto` in the one-row witness run. -/
def logB1 : List Ev :=
  [Ev.phase "benchMySQLAuto",
   Ev.call (SQLOp.prepareStmt "INSERT INTO bench_auto (payload) VALUES (?)"),
   Ev.call (SQLOp.insert "INSERT INTO bench_auto (payload) VALUES (?)"),
   Ev.call (SQLOp.selectIds "SELECT id FROM bench_auto ORDER BY id" [1]),
   Ev.call (SQLOp.prepareStmt "SELECT payload FROM bench_auto WHERE id = ?"),
   Ev.call (SQLOp.pointLookup "SELECT payload FROM bench_auto WHERE id = ?"),
   Ev.call (SQLOp.between "SELECT COUNT(*) FROM bench_auto WHERE id BETWEEN ? AND ?" 1 1)]

/-- Ghost-log segment of `benchMySQLUUIDChar` in the witness run. -/
def logB2 : List Ev :=
  [Ev.phase "benchMySQLUUIDChar",
   Ev.call (SQLOp.prepareStmt "INSERT INTO bench_uuid_char (id, payload) VALUES (?, ?)"),
   Ev.call (SQLOp.insert "INSERT INTO bench_uuid_char (id, payload) VALUES (?, ?)"),
   Ev.call (SQLOp.prepareStmt "SELECT payload FROM bench_uuid_char WHERE id = ?"),
   Ev.call (SQLOp.pointLookup "SELECT payload FROM bench_uuid_char WHERE id = ?"),
   Ev.call (SQLOp.orderLimit "SELECT id FROM bench_uuid_char ORDER BY id LIMIT 10000" 10000 1)]

/-- Ghost-log segment of `benchMySQLUUIDBin` in the witness run. -/
def logB3 : List Ev :=
  [Ev.phase "benchMySQLUUIDBin",
   Ev.call (SQLOp.prepareStmt "INSERT INTO bench_uuid_bin (id, payload) VALUES (?, ?)"),
   Ev.call (SQLOp.insert "INSERT INTO bench_uuid_bin (id, payload) VALUES (?, ?)"),
   Ev.call (SQLOp.prepareStmt "SELECT payload FROM bench_uuid_bin WHERE id = ?"),
   Ev.call (SQLOp.pointLookup "SELECT payload FROM bench_uuid_bin WHERE id = ?"),
   Ev.call (SQLOp.orderLimit "SELECT id FROM bench_uuid_bin ORDER BY id LIMIT 10000" 10000 1)]

/-- Ghost-log segment of `benchPGAuto` in the witness run. -/
def logB4 : List Ev :=
  [Ev.phase "benchPGAuto",
   Ev.call (SQLOp.prepareStmt "INSERT INTO bench_auto (payload) VALUES ($1)"),
   Ev.call (SQLOp.insert "INSERT INTO bench_auto (payload) VALUES ($1)"),
   Ev.call (SQLOp.selectIds "SELECT id FROM bench_auto ORDER BY id" [1]),
   Ev.call (SQLOp.prepareStmt "SELECT payload FROM bench_auto WHERE id = $1"),
   Ev.call (SQLOp.pointLookup "SELECT payload FROM bench_auto WHERE id = $1"),
   Ev.call (SQLOp.between "SELECT COUNT(*) FROM bench_auto WHERE id BETWEEN $1 AND $2" 1 1)]

/-- Ghost-log segment of `benchPGUUID` in the witness run. -/
def logB5 : List Ev :=
  [Ev.phase "benchPGUUID",
   Ev.call (SQLOp.prepareStmt "INSERT INTO bench_uuid (id, payload) VALUES ($1, $2)"),
   Ev.call (SQLOp.insert "INSERT INTO bench_uuid (id, payload) VALUES ($1, $2)"),
   Ev.call (SQLOp.prepareStmt "SELECT payload FROM bench_uuid WHERE id = $1"),
   Ev.call (SQLOp.pointLookup "SELECT payload FROM bench_uuid WHERE id = $1"),
   Ev.call (SQLOp.orderLimit "SELECT id FROM bench_uuid ORDER BY id LIMIT 10000" 10000 1)]

/-- State after `setupMySQL` in the fault-free one-row witness run. -/
def stW1 : St :=
  { mysql := { auto := [], autoSeq := 0, uuidChar := [], uuidBin := [] },
    pg := { auto := [], autoSeq := 0, uuid := [] },
    callIdx := 6, timeIdx := 0, uuidIdx := 0, log := logSetupM }

/-- State after `setupPostgres` in the witness run. -/
def stW2 : St := { stW1 with callIdx := 10, log := logSetupM ++ logSetupP }

/-- State after `benchMySQLAuto` in the witness run. -/
def stW3 : St :=
  { mysql := { auto := [(1, "p-0")], autoSeq := 1, uuidChar := [], uuidBin := [] },
    pg := { auto := [], autoSeq := 0, uuid := [] },
    callIdx := 16, timeIdx := 6, uuidIdx := 0,
    log := logSetupM ++ logSetupP ++ logB1 }

/-- State after `benchMySQLUUIDChar` in the witness run. -/
def stW4 : St :=
  { stW3 with
    mysql := { auto := [(1, "p-0")], autoSeq := 1, uuidChar := [("0", "p-0")], uuidBin := [] },
    callIdx := 21, timeIdx := 12, uuidIdx := 1,
    log := logSetupM ++ logSetupP ++ logB1 ++ logB2 }

/-- State after `benchMySQLUUIDBin` in the witness run. -/
def stW5 : St :=
  { stW4 with
    mysql := { auto := [(1, "p-0")], autoSeq := 1, uuidChar := [("0", "p-0")],
               uuidBin := [(List.replicate 16 0, "p-0")] },
    callIdx := 26, timeIdx := 18, uuidIdx := 2,
    log := logSetupM ++ logSetupP ++ logB1 ++ logB2 ++ logB3 }

/-- State after `benchPGAuto` in the witness run. -/
def stW6 : St :=
  { stW5 with
    pg := { auto := [(1, "p-0")], autoSeq := 1, uuid := [] },
    callIdx := 32, timeIdx := 24,
    log := logSetupM ++ logSetupP ++ logB1 ++ logB2 ++ logB3 ++ logB4 }

/-- Final state of the witness run. -/
def stW7 : St :=
  { stW6 with
    pg := { auto := [(1, "p-0")], autoSeq := 1, uuid := [(uuidZero, "p-0")] },
    callIdx := 37, timeIdx := 30, uuidIdx := 3,
    log := logSetupM ++ logSetupP ++ logB1 ++ logB2 ++ logB3 ++ logB4 ++ logB5 }

/-- Claim C2: encoding a UUID to bytes and decoding back is the
identity, and decoding any byte list whose length is not 16 fails. -/
theorem claim2_uuid_roundtrip :
    (∀ u : UUID, BytesToUUID (UUIDToBytes u) = Except.ok u) ∧
    (∀ b : List Nat, b.length ≠ 16 → ∃ e, BytesToUUID b = Except.error e) := by
  constructor
  · intro u
    unfold BytesToUUID UUIDToBytes
    rw [dif_pos u.property]
    rfl
  · intro b hb
    unfold BytesToUUID
    rw [dif_neg hb]
    exact ⟨_, rfl⟩

/-- Witness for C2 at the zero UUID and the empty byte list. -/
theorem claim2_uuid_roundtrip_witness :
    BytesToUUID (UUIDToBytes uuidZero) = Except.ok uuidZero ∧
    ([] : List Nat).length ≠ 16 ∧ (∃ e, BytesToUUID [] = Except.error e) :=
  ⟨claim2_uuid_roundtrip.1 uuidZero, by decide, claim2_uuid_roundtrip.2 [] (by decide)⟩

/-- Claim C3: `ValidateConfig` fails exactly when the row count or the
lookup count is nonpositive, succeeds on all positive pairs, and
depends on no configuration field other than `Rows` and `Lookups`. -/
theorem claim3_validate_config :
    (∀ cfg : Config, (∃ e, ValidateConfig cfg = Except.error e) ↔
        cfg.Rows ≤ 0 ∨ cfg.Lookups ≤ 0) ∧
    (∀ cfg : Config, 0 < cfg.Rows → 0 < cfg.Lookups → ValidateConfig cfg = Except.ok ()) ∧
    (∀ c1 c2 : Config, c1.Rows = c2.Rows → c1.Lookups = c2.Lookups →
        ValidateConfig c1 = ValidateConfig c2) := by
  refine ⟨fun cfg => ⟨fun ⟨e, he⟩ => ?_, fun h => ?_⟩, fun cfg h1 h2 => ?_, fun c1 c2 hr hl => ?_⟩
  · by_contra hc
    push_neg at hc
    unfold ValidateConfig at he
    rw [if_neg (by omega), if_neg (by omega)] at he
    simp at he
  · by_cases h1 : cfg.Rows ≤ 0
    · exact ⟨_, by unfold ValidateConfig; rw [if_pos h1]⟩
    · have h2 : cfg.Lookups ≤ 0 := h.resolve_left h1
      exact ⟨_, by unfold ValidateConfig; rw [if_neg h1, if_pos h2]⟩
  · unfold ValidateConfig
    rw [if_neg (by omega), if_neg (by omega)]
  · unfold ValidateConfig
    rw [hr, hl]

/-- Witness for C3: a zero-row configuration fails, a positive one
succeeds, and changing only the host changes nothing. -/
theorem claim3_validate_config_witness :
    (∃ e, ValidateConfig cfgZeroRows = Except.error e) ∧
    ValidateConfig cfgOne = Except.ok () ∧
    ValidateConfig cfgOne = ValidateConfig cfgAltHost :=
  ⟨(claim3_validate_config.1 cfgZeroRows).mpr (Or.inl (by decide)),
   claim3_validate_config.2.1 cfgOne (by decide) (by decide),
   claim3_validate_config.2.2 cfgOne cfgAltHost rfl rfl⟩

/-- Claim C7: formatting the single spec-mandated record yields the
exact header line followed by the exact data line, with each seconds
value rendered to six decimals and the trailing newline trimmed. -/
theorem claim7_format_results :
    FormatResults [{ DB := "mysql", Table := "bench_auto", InsertRows := 1000,
                     InsertSeconds := 123/100, PointLookupCount := 500,
                     PointSeconds := 45/100, RangeSeconds := 1/100 }] =
    "=== Benchmark Results ===\n" ++
      "db,table,insert_rows,insert_sec,point_lookups,point_sec,range_or_orderby_sec\n" ++
      "mysql,bench_auto,1000,1.230000,500,0.450000,0.010000" := by
  have e1 : fmt6 ((123 : ℚ)/100) = "1.230000" := by
    unfold fmt6 fmt6abs
    rw [if_neg (by norm_num),
      show ⌊((123 : ℚ)/100) * 1000000 + 1/2⌋ = (1230000 : ℤ) from by
        rw [Int.floor_eq_iff] <;> norm_num]
    rfl
  have e2 : fmt6 ((45 : ℚ)/100) = "0.450000" := by
    unfold fmt6 fmt6abs
    rw [if_neg (by norm_num),
      show ⌊((45 : ℚ)/100) * 1000000 + 1/2⌋ = (450000 : ℤ) from by
        rw [Int.floor_eq_iff] <;> norm_num]
    rfl
  have e3 : fmt6 ((1 : ℚ)/100) = "0.010000" := by
    unfold fmt6 fmt6abs
    rw [if_neg (by norm_num),
      show ⌊((1 : ℚ)/100) * 1000000 + 1/2⌋ = (10000 : ℤ) from by
        rw [Int.floor_eq_iff] <;> norm_num]
    rfl
  unfold FormatResults
  simp only [List.map_cons, List.map_nil]
  unfold resultLine
  dsimp only
  rw [e1, e2, e3]
  decide

/-- Claim C8 (first half by direct evaluation): `ChunkBounds 10 4` is
exactly `[(0,4), (4,8), (8,10)]`, and any nonpositive total or chunk
yields the empty list. -/
theorem claim8_chunk_bounds :
    ChunkBounds 10 4 = [(0, 4), (4, 8), (8, 10)] ∧
    (∀ total chunk : Int, total ≤ 0 ∨ chunk ≤ 0 → ChunkBounds total chunk = []) := by
  constructor
  · decide
  · intro t c h
    unfold ChunkBounds
    rcases h with h | h <;> simp [h]

/-- Witness for C8 exercising the nonpositive-input hypothesis. -/
theorem claim8_chunk_bounds_witness :
    ((0 : Int) ≤ 0 ∨ (5 : Int) ≤ 0) ∧ ChunkBounds 0 5 = [] :=
  ⟨Or.inl (by decide), claim8_chunk_bounds.2 0 5 (Or.inl (by decide))⟩

/-- The loop never runs once `i` has reached `total`. -/
theorem chunkLoop_stop (total chunk : Int) (fuel : Nat) (i : Int) (h : ¬ i < total) :
    chunkLoop total chunk fuel i = [] := by
  cases fuel with
  | zero => rfl
  | succ n =>
    unfold chunkLoop
    rw [if_neg h]

/-- Inductive characterisation of `chunkLoop` under sufficient fuel:
starting at `i < total` it produces a nonempty chain of intervals from
`i` to `total`, each of positive length at most `chunk`, consecutive
intervals adjacent, and all but the last of length exactly `chunk`. -/
theorem chunkLoop_spec (total chunk : Int) (hc : 0 < chunk) :
    ∀ (fuel : Nat) (i : Int), i < total → (total - i).toNat ≤ fuel →
      (chunkLoop total chunk fuel i ≠ [] ∧
       (chunkLoop total chunk fuel i).head?.map Prod.fst = some i ∧
       (∃ q, (chunkLoop total chunk fuel i).getLast? = some q ∧ q.2 = total) ∧
       (∀ p ∈ chunkLoop total chunk fuel i, p.1 < p.2 ∧ p.2 - p.1 ≤ chunk) ∧
       (∀ j, j + 1 < (chunkLoop total chunk fuel i).length →
          ((chunkLoop total chunk fuel i).getD j (0, 0)).2 =
            ((chunkLoop total chunk fuel i).getD (j + 1) (0, 0)).1 ∧
          ((chunkLoop total chunk fuel i).getD j (0, 0)).2 -
            ((chunkLoop total chunk fuel i).getD j (0, 0)).1 = chunk)) := by
  intro fuel
  induction fuel with
  | zero =>
    intro i hi hf
    omega
  | succ n ih =>
    intro i hi hf
    by_cases hnext : i + chunk < total
    · have hrest := ih (i + chunk) hnext (by omega)
      have heq : chunkLoop total chunk (n + 1) i =
          (i, i + chunk) :: chunkLoop total chunk n (i + chunk) := by
        simp only [chunkLoop]
        rw [if_pos hi]
        rw [if_neg (by omega)]
      rw [heq]
      obtain ⟨hne, hhead, ⟨q, hlast, hq⟩, hmem, hchain⟩ := hrest
      rcases hr : chunkLoop total chunk n (i + chunk) with _ | ⟨p1, rest⟩
      · exact absurd hr hne
      rw [hr] at hhead hlast hmem hchain
      refine ⟨by simp, by simp, ⟨q, ?_, hq⟩, ?_, ?_⟩
      · rw [List.getLast?_cons_cons]
        exact hlast
      · intro p hp
        rcases List.mem_cons.mp hp with hp | hp
        · subst hp
          refine ⟨?_, ?_⟩ <;> (dsimp only; omega)
        · exact hmem p hp
      · intro j hj
        cases j with
        | zero =>
          have hp1 : p1.1 = i + chunk := by
            simpa using hhead
          simp only [List.getD_cons_zero, List.getD_cons_succ]
          refine ⟨?_, ?_⟩ <;> (dsimp only; omega)
        | succ j' =>
          simp only [List.getD_cons_succ]
          refine hchain j' ?_
          simp only [List.length_cons] at hj ⊢
          omega
    · have heq : chunkLoop total chunk (n + 1) i = [(i, total)] := by
        simp only [chunkLoop]
        rw [if_pos hi]
        by_cases hgt : i + chunk > total
        · rw [if_pos hgt, chunkLoop_stop total chunk n (i + chunk) (by omega)]
        · rw [if_neg hgt, show i + chunk = total by omega,
            chunkLoop_stop total chunk n total (by omega)]
      rw [heq]
      refine ⟨by simp, by simp, ⟨(i, total), by simp, rfl⟩, ?_, ?_⟩
      · intro p hp
        rcases List.mem_cons.mp hp with hp | hp
        · subst hp
          refine ⟨?_, ?_⟩ <;> (dsimp only; omega)
        · simp at hp
      · intro j hj
        simp at hj

/-- Claim C9: for positive `total` and `chunk`, `ChunkBounds` returns a
nonempty list of adjacent intervals partitioning `[0, total)`: the
first starts at 0, the last ends at `total`, each interval's end is the
next one's start, every interval has length in `[1, chunk]`, and every
interval except possibly the last has length exactly `chunk`. -/
theorem claim9_chunk_partition (total chunk : Int) (ht : 0 < total) (hc : 0 < chunk) :
    ChunkBounds total chunk ≠ [] ∧
    (ChunkBounds total chunk).head?.map Prod.fst = some 0 ∧
    (∃ q, (ChunkBounds total chunk).getLast? = some q ∧ q.2 = total) ∧
    (∀ p ∈ ChunkBounds total chunk, p.1 < p.2 ∧ p.2 - p.1 ≤ chunk) ∧
    (∀ j, j + 1 < (ChunkBounds total chunk).length →
       ((ChunkBounds total chunk).getD j (0, 0)).2 =
         ((ChunkBounds total chunk).getD (j + 1) (0, 0)).1 ∧
       ((ChunkBounds total chunk).getD j (0, 0)).2 -
         ((ChunkBounds total chunk).getD j (0, 0)).1 = chunk) := by
  have hcond : ChunkBounds total chunk = chunkLoop total chunk total.toNat 0 := by
    unfold ChunkBounds
    rw [if_neg (by simp; omega)]
  rw [hcond]
  exact chunkLoop_spec total chunk hc total.toNat 0 ht (by omega)

/-- Witness for C9 at `total = 10`, `chunk = 4`. -/
theorem claim9_chunk_partition_witness :
    (0 : Int) < 10 ∧ (0 : Int) < 4 ∧
    (ChunkBounds 10 4 ≠ [] ∧
     (ChunkBounds 10 4).head?.map Prod.fst = some 0 ∧
     (∃ q, (ChunkBounds 10 4).getLast? = some q ∧ q.2 = 10) ∧
     (∀ p ∈ ChunkBounds 10 4, p.1 < p.2 ∧ p.2 - p.1 ≤ 4) ∧
     (∀ j, j + 1 < (ChunkBounds 10 4).length →
        ((ChunkBounds 10 4).getD j (0, 0)).2 = ((ChunkBounds 10 4).getD (j + 1) (0, 0)).1 ∧
        ((ChunkBounds 10 4).getD j (0, 0)).2 - ((ChunkBounds 10 4).getD j (0, 0)).1 = 4)) :=
  ⟨by decide, by decide, claim9_chunk_partition 10 4 (by decide) (by decide)⟩

/-- Claim C10: for a nonempty key list the 25th/75th-percentile
positions used by the auto-increment range phase are in bounds. -/
theorem claim10_percentile_index_safe :
    ∀ ids : List Int, ids ≠ [] →
      rangeLoIndex ids.length < ids.length ∧ rangeHiIndex ids.length < ids.length := by
  intro ids h
  have hpos : 0 < ids.length := List.length_pos.mpr h
  unfold rangeLoIndex rangeHiIndex
  omega

/-- Witness for C10 at the singleton list `[5]`. -/
theorem claim10_percentile_index_safe_witness :
    ([(5 : Int)] ≠ []) ∧
    rangeLoIndex [(5 : Int)].length < [(5 : Int)].length ∧
    rangeHiIndex [(5 : Int)].length < [(5 : Int)].length :=
  ⟨by decide, claim10_percentile_index_safe [5] (by decide)⟩

/-- Unfolding lemma for `bind` in `M`. -/
theorem M.bind_eq {α β : Type} (x : M α) (f : α → M β) (s : St) :
    (x >>= f) s = match x s with
      | (.ok a, s1) => f a s1
      | (.error e, s1) => (.error e, s1) := rfl

/-- Unfolding lemma for `pure` in `M`. -/
theorem M.pure_eq {α : Type} (a : α) (s : St) : (pure a : M α) s = (.ok a, s) := rfl

/-- A `bind` succeeds exactly when both halves do. -/
theorem bind_ok_iff {α β : Type} (x : M α) (f : α → M β) (s : St) (b : β) (s2 : St) :
    (x >>= f) s = (.ok b, s2) ↔ ∃ a s1, x s = (.ok a, s1) ∧ f a s1 = (.ok b, s2) := by
  rw [M.bind_eq]
  rcases h : x s with ⟨res, st1⟩
  cases res with
  | ok a =>
    dsimp only
    constructor
    · intro h2
      exact ⟨a, st1, rfl, h2⟩
    · rintro ⟨a1, s1, h1, h2⟩
      injection h1 with h1a h1b
      injection h1a with h1a
      subst h1a
      subst h1b
      exact h2
  | error e => simp

/-- Propagation through `bind` of a successful first step. -/
theorem bind_ok_step {α β : Type} (x : M α) (f : α → M β) (s : St) (a : α) (s1 : St)
    (h : x s = (.ok a, s1)) : (x >>= f) s = f a s1 := by
  rw [M.bind_eq, h]

/-- Propagation through `bind` of a failing first step. -/
theorem bind_error_of {α β : Type} (x : M α) (f : α → M β) (s : St) (e : Err) (s1 : St)
    (h : x s = (.error e, s1)) : (x >>= f) s = (.error e, s1) := by
  rw [M.bind_eq, h]

/-- Evaluation of `traceEnter`. -/
theorem traceEnter_eq (name : String) (s : St) :
    traceEnter name s = (.ok (), { s with log := s.log ++ [Ev.phase name] }) := rfl

/-- Evaluation of `readClock`. -/
theorem readClock_eq (env : Env) (s : St) :
    readClock env s = (.ok (env.now s.timeIdx), { s with timeIdx := s.timeIdx + 1 }) := rfl

/-- Evaluation of `genUUIDStr`. -/
theorem genUUIDStr_eq (env : Env) (s : St) :
    genUUIDStr env s = (.ok (env.newUUIDStr s.uuidIdx), { s with uuidIdx := s.uuidIdx + 1 }) := rfl

/-- Evaluation of `genUUID`. -/
theorem genUUID_eq (env : Env) (s : St) :
    genUUID env s = (.ok (env.newUUID s.uuidIdx), { s with uuidIdx := s.uuidIdx + 1 }) := rfl

/-- Evaluation of the binary-key generator `UUIDToBytes (uuid.New())`. -/
theorem genBin_eq (env : Env) (s : St) :
    (do let u ← genUUID env; pure (UUIDToBytes u) : M (List Nat)) s =
      (.ok (UUIDToBytes (env.newUUID s.uuidIdx)), { s with uuidIdx := s.uuidIdx + 1 }) := rfl

/-- Success inversion for `dbExec`. -/
theorem dbExec_ok {env : Env} {op : SQLOp} {f : St → St} {s : St} {u : Unit} {s' : St}
    (hc : dbExec env op f s = (.ok u, s')) :
    env.fail s.callIdx = none ∧
      s' = f { s with callIdx := s.callIdx + 1, log := s.log ++ [Ev.call op] } := by
  unfold dbExec at hc
  rcases h : env.fail s.callIdx with _ | e
  · rw [h] at hc
    injection hc with h1 h2
    exact ⟨rfl, h2.symm⟩
  · rw [h] at hc
    simp at hc

/-- Success inversion for `dbSelectIds`. -/
theorem dbSelectIds_ok {env : Env} {stmt : String} {sel : St → List Int} {s : St}
    {ids : List Int} {s' : St}
    (hc : dbSelectIds env stmt sel s = (.ok ids, s')) :
    env.fail s.callIdx = none ∧ ids = sel s ∧
      s' = { s with callIdx := s.callIdx + 1,
                    log := s.log ++ [Ev.call (SQLOp.selectIds stmt (sel s))] } := by
  unfold dbSelectIds at hc
  rcases h : env.fail s.callIdx with _ | e
  · rw [h] at hc
    injection hc with h1 h2
    injection h1 with h1
    exact ⟨rfl, h1.symm, h2.symm⟩
  · rw [h] at hc
    simp at hc

/-- Success inversion for `dbOrderScan`. -/
theorem dbOrderScan_ok {κ : Type} {env : Env} {stmt : String} {limit : Nat}
    {sortedKeys : St → List κ} {s : St} {out : List κ} {s' : St}
    (hc : dbOrderScan env stmt limit sortedKeys s = (.ok out, s')) :
    env.fail s.callIdx = none ∧ out = (sortedKeys s).take limit ∧
      s' = { s with callIdx := s.callIdx + 1,
                    log := s.log ++
                      [Ev.call (SQLOp.orderLimit stmt limit ((sortedKeys s).take limit).length)] } := by
  unfold dbOrderScan at hc
  rcases h : env.fail s.callIdx with _ | e
  · rw [h] at hc
    injection hc with h1 h2
    injection h1 with h1
    exact ⟨rfl, h1.symm, h2.symm⟩
  · rw [h] at hc
    simp at hc

/-- Success inversion for `dbBetweenCount`. -/
theorem dbBetweenCount_ok {env : Env} {stmt : String} {lo hi : Int} {keys : St → List Int}
    {s : St} {c : Int} {s' : St}
    (hc : dbBetweenCount env stmt lo hi keys s = (.ok c, s')) :
    env.fail s.callIdx = none ∧
      s' = { s with callIdx := s.callIdx + 1,
                    log := s.log ++ [Ev.call (SQLOp.between stmt lo hi)] } := by
  unfold dbBetweenCount at hc
  rcases h : env.fail s.callIdx with _ | e
  · rw [h] at hc
    injection hc with h1 h2
    exact ⟨rfl, h2.symm⟩
  · rw [h] at hc
    simp at hc

/-- Whatever its outcome, a point lookup only bumps the call counter
and logs its query. -/
theorem dbPointLookup_state {κ : Type} [DecidableEq κ] (env : Env) (stmt : String) (key : κ)
    (tbl : St → List (κ × String)) (s : St) :
    (dbPointLookup env stmt key tbl s).2 =
      { s with callIdx := s.callIdx + 1, log := s.log ++ [Ev.call (SQLOp.pointLookup stmt)] } := by
  unfold dbPointLookup
  rcases env.fail s.callIdx with _ | e
  · dsimp only
    split <;> rfl
  · rfl

/-- The projection `rangeCalls` distributes over append. -/
theorem rangeCalls_append (l l' : List Ev) :
    rangeCalls (l ++ l') = rangeCalls l ++ rangeCalls l' := by
  simp [rangeCalls, List.filter_append]

/-- Appending a non-range event leaves `rangeCalls` unchanged. -/
theorem rangeCalls_snoc_nonrange (l : List Ev) (e : Ev) (h : isRangeCall e = false) :
    rangeCalls (l ++ [e]) = rangeCalls l := by
  simp [rangeCalls, List.filter_append, h]

/-- Appending a range event appends it to `rangeCalls`. -/
theorem rangeCalls_snoc_range (l : List Ev) (e : Ev) (h : isRangeCall e = true) :
    rangeCalls (l ++ [e]) = rangeCalls l ++ [e] := by
  simp [rangeCalls, List.filter_append, h]

/-- Appending a prepare event leaves `rangeCalls` unchanged. -/
theorem rangeCalls_snoc_prepare (l : List Ev) (stmt : String) :
    rangeCalls (l ++ [Ev.call (SQLOp.prepareStmt stmt)]) = rangeCalls l :=
  rangeCalls_snoc_nonrange l _ rfl

/-- Appending an insert event leaves `rangeCalls` unchanged. -/
theorem rangeCalls_snoc_insert (l : List Ev) (stmt : String) :
    rangeCalls (l ++ [Ev.call (SQLOp.insert stmt)]) = rangeCalls l :=
  rangeCalls_snoc_nonrange l _ rfl

/-- Appending a DDL event leaves `rangeCalls` unchanged. -/
theorem rangeCalls_snoc_exec (l : List Ev) (stmt : String) :
    rangeCalls (l ++ [Ev.call (SQLOp.execStmt stmt)]) = rangeCalls l :=
  rangeCalls_snoc_nonrange l _ rfl

/-- Appending a phase marker leaves `rangeCalls` unchanged. -/
theorem rangeCalls_snoc_phase (l : List Ev) (n : String) :
    rangeCalls (l ++ [Ev.phase n]) = rangeCalls l :=
  rangeCalls_snoc_nonrange l _ rfl

/-- Appending a point-lookup event leaves `rangeCalls` unchanged. -/
theorem rangeCalls_snoc_pointLookup (l : List Ev) (stmt : String) :
    rangeCalls (l ++ [Ev.call (SQLOp.pointLookup stmt)]) = rangeCalls l :=
  rangeCalls_snoc_nonrange l _ rfl

/-- An id read-back event is kept by `rangeCalls`. -/
theorem rangeCalls_snoc_selectIds (l : List Ev) (stmt : String) (ids : List Int) :
    rangeCalls (l ++ [Ev.call (SQLOp.selectIds stmt ids)]) =
      rangeCalls l ++ [Ev.call (SQLOp.selectIds stmt ids)] :=
  rangeCalls_snoc_range l _ rfl

/-- A BETWEEN count event is kept by `rangeCalls`. -/
theorem rangeCalls_snoc_between (l : List Ev) (stmt : String) (lo hi : Int) :
    rangeCalls (l ++ [Ev.call (SQLOp.between stmt lo hi)]) =
      rangeCalls l ++ [Ev.call (SQLOp.between stmt lo hi)] :=
  rangeCalls_snoc_range l _ rfl

/-- An ORDER BY/LIMIT scan event is kept by `rangeCalls`. -/
theorem rangeCalls_snoc_orderLimit (l : List Ev) (stmt : String) (limit got : Nat) :
    rangeCalls (l ++ [Ev.call (SQLOp.orderLimit stmt limit got)]) =
      rangeCalls l ++ [Ev.call (SQLOp.orderLimit stmt limit got)] :=
  rangeCalls_snoc_range l _ rfl

/-- The projection `phasesOf` distributes over append. -/
theorem phasesOf_append (l l' : List Ev) :
    phasesOf (l ++ l') = phasesOf l ++ phasesOf l' := by
  simp [phasesOf, List.filterMap_append]

/-- A call event contributes no phase entry. -/
theorem phasesOf_call (op : SQLOp) : phasesOf [Ev.call op] = [] := rfl

/-- A phase event contributes its name. -/
theorem phasesOf_phase (n : String) : phasesOf [Ev.phase n] = [n] := rfl

/-- Success of a point-lookup loop leaves both engines' tables and the
range-call log unchanged. -/
theorem lookupLoop_ok {κ : Type} [DecidableEq κ] (env : Env) (stmt : String)
    (tbl : St → List (κ × String)) :
    ∀ (ks : List κ) (s : St) (u : Unit) (s' : St),
      lookupLoop env stmt tbl ks s = (.ok u, s') →
      s'.mysql = s.mysql ∧ s'.pg = s.pg ∧ rangeCalls s'.log = rangeCalls s.log := by
  intro ks
  induction ks with
  | nil =>
    intro s u s' hc
    simp only [lookupLoop, M.pure_eq] at hc
    injection hc with h1 h2
    subst h2
    exact ⟨rfl, rfl, rfl⟩
  | cons k rest ih =>
    intro s u s' hc
    simp only [lookupLoop] at hc
    rw [bind_ok_iff] at hc
    obtain ⟨v, s1, hstep, hc⟩ := hc
    have hs1 : s1 = { s with callIdx := s.callIdx + 1,
                             log := s.log ++ [Ev.call (SQLOp.pointLookup stmt)] } := by
      rw [← dbPointLookup_state env stmt k tbl s, hstep]
    obtain ⟨h1, h2, h3⟩ := ih s1 u s' hc
    subst hs1
    exact ⟨h1, h2, h3.trans (rangeCalls_snoc_nonrange _ _ rfl)⟩

/-- Success of the MySQL auto-increment insert loop: the table grows by
exactly `n` rows and nothing else (up to call counter, clock and log
bookkeeping) changes; no range call is logged. -/
theorem insertLoopAuto_ok_mysql (env : Env) (stmt : String) :
    ∀ (n : Nat) (i : Int) (s : St) (u : Unit) (s' : St),
      insertLoopAuto env stmt insertAutoRowMySQL n i s = (.ok u, s') →
      s'.mysql.auto.length = s.mysql.auto.length + n ∧
      s'.mysql.uuidChar = s.mysql.uuidChar ∧ s'.mysql.uuidBin = s.mysql.uuidBin ∧
      s'.pg = s.pg ∧ rangeCalls s'.log = rangeCalls s.log := by
  intro n
  induction n with
  | zero =>
    intro i s u s' hc
    simp only [insertLoopAuto, M.pure_eq] at hc
    injection hc with h1 h2
    subst h2
    exact ⟨rfl, rfl, rfl, rfl, rfl⟩
  | succ n ih =>
    intro i s u s' hc
    simp only [insertLoopAuto] at hc
    rw [bind_ok_iff] at hc
    obtain ⟨v, s1, hstep, hc⟩ := hc
    obtain ⟨hfail, hs1⟩ := dbExec_ok hstep
    obtain ⟨ha, hb, hd, he, hf⟩ := ih (i + 1) s1 u s' hc
    subst hs1
    refine ⟨?_, hb, hd, he, hf.trans (rangeCalls_snoc_nonrange _ _ rfl)⟩
    rw [ha]
    simp [insertAutoRowMySQL]
    omega

/-- Success of the PostgreSQL auto-increment insert loop. -/
theorem insertLoopAuto_ok_pg (env : Env) (stmt : String) :
    ∀ (n : Nat) (i : Int) (s : St) (u : Unit) (s' : St),
      insertLoopAuto env stmt insertAutoRowPG n i s = (.ok u, s') →
      s'.pg.auto.length = s.pg.auto.length + n ∧
      s'.pg.uuid = s.pg.uuid ∧ s'.mysql = s.mysql ∧
      rangeCalls s'.log = rangeCalls s.log := by
  intro n
  induction n with
  | zero =>
    intro i s u s' hc
    simp only [insertLoopAuto, M.pure_eq] at hc
    injection hc with h1 h2
    subst h2
    exact ⟨rfl, rfl, rfl, rfl⟩
  | succ n ih =>
    intro i s u s' hc
    simp only [insertLoopAuto] at hc
    rw [bind_ok_iff] at hc
    obtain ⟨v, s1, hstep, hc⟩ := hc
    obtain ⟨hfail, hs1⟩ := dbExec_ok hstep
    obtain ⟨ha, hb, hd, he⟩ := ih (i + 1) s1 u s' hc
    subst hs1
    refine ⟨?_, hb, hd, he.trans (rangeCalls_snoc_nonrange _ _ rfl)⟩
    rw [ha]
    simp [insertAutoRowPG]
    omega

/-- Success inversion for `benchMySQLAuto`: a successful run read back
a sorted id list covering the table after `rows` inserts, reported the
constant engine/table names, the configured row count and the sample
length, and issued exactly one id read-back followed by one BETWEEN
count with the percentile bounds of that list. -/
theorem benchMySQLAuto_ok {env : Env} {rows lookups : Int} {s : St} {r : Result} {s' : St}
    (hc : benchMySQLAuto env rows lookups s = (.ok r, s')) :
    ∃ ids : List Int,
      ids.length = s.mysql.auto.length + rows.toNat ∧
      List.Sorted (· ≤ ·) ids ∧
      r.DB = "mysql" ∧ r.Table = "bench_auto" ∧ r.InsertRows = rows ∧
      r.PointLookupCount = ((takeSample ids lookups).length : Int) ∧
      rangeCalls s'.log = rangeCalls s.log ++
        [Ev.call (SQLOp.selectIds "SELECT id FROM bench_auto ORDER BY id" ids),
         Ev.call (SQLOp.between "SELECT COUNT(*) FROM bench_auto WHERE id BETWEEN ? AND ?"
            (autoRangeBounds ids).1 (autoRangeBounds ids).2)] := by
  unfold benchMySQLAuto at hc
  rw [bind_ok_iff] at hc
  obtain ⟨u0, sA, h0, hc⟩ := hc
  rw [traceEnter_eq] at h0
  injection h0 with h0a h0b
  subst h0b
  rw [bind_ok_iff] at hc
  obtain ⟨u1, sB, h1, hc⟩ := hc
  obtain ⟨hf1, hsB⟩ := dbExec_ok h1
  subst hsB
  rw [bind_ok_iff] at hc
  obtain ⟨t0, sC, h2, hc⟩ := hc
  rw [readClock_eq] at h2
  injection h2 with h2a h2b
  subst h2b
  rw [bind_ok_iff] at hc
  obtain ⟨u2, sD, hloop, hc⟩ := hc
  rw [bind_ok_iff] at hc
  obtain ⟨t1, sE, h3, hc⟩ := hc
  rw [readClock_eq] at h3
  injection h3 with h3a h3b
  subst h3b
  rw [bind_ok_iff] at hc
  obtain ⟨ids, sF, hsel, hc⟩ := hc
  obtain ⟨hf2, hids, hsF⟩ := dbSelectIds_ok hsel
  subst hsF
  rw [bind_ok_iff] at hc
  obtain ⟨u3, sG, h4, hc⟩ := hc
  obtain ⟨hf3, hsG⟩ := dbExec_ok h4
  subst hsG
  rw [bind_ok_iff] at hc
  obtain ⟨t2, sH, h5, hc⟩ := hc
  rw [readClock_eq] at h5
  injection h5 with h5a h5b
  subst h5b
  rw [bind_ok_iff] at hc
  obtain ⟨u4, sI, hlk, hc⟩ := hc
  rw [bind_ok_iff] at hc
  obtain ⟨t3, sJ, h6, hc⟩ := hc
  rw [readClock_eq] at h6
  injection h6 with h6a h6b
  subst h6b
  rw [bind_ok_iff] at hc
  obtain ⟨t4, sK, h7, hc⟩ := hc
  rw [readClock_eq] at h7
  injection h7 with h7a h7b
  subst h7b
  rw [bind_ok_iff] at hc
  obtain ⟨cv, sL, hbt, hc⟩ := hc
  obtain ⟨hf4, hsL⟩ := dbBetweenCount_ok hbt
  subst hsL
  rw [bind_ok_iff] at hc
  obtain ⟨t5, sM, h8, hc⟩ := hc
  rw [readClock_eq] at h8
  injection h8 with h8a h8b
  subst h8b
  rw [M.pure_eq] at hc
  injection hc with hr hs'
  injection hr with hr
  subst hr
  subst hs'
  obtain ⟨L1, L2, L3, L4, L5⟩ :=
    insertLoopAuto_ok_mysql env _ rows.toNat 0 _ u2 sD hloop
  obtain ⟨K1, K2, K3⟩ := lookupLoop_ok env _ _ _ _ u4 sI hlk
  refine ⟨ids, ?_, ?_, rfl, rfl, rfl, rfl, ?_⟩
  · have hlen : ids.length = sD.mysql.auto.length := by
      rw [hids, List.length_insertionSort, List.length_map]
    exact hlen.trans L1
  · rw [hids]
    exact List.sorted_insertionSort _ _
  · dsimp only [id_eq] at K3 L5 hids
    rw [← hids] at K3
    dsimp only [id_eq]
    rw [rangeCalls_snoc_between, K3, rangeCalls_snoc_prepare, rangeCalls_snoc_selectIds, L5,
      rangeCalls_snoc_prepare, rangeCalls_snoc_phase]
    simp

/-- Success of the CHAR(36) insert loop: one generated key and one
inserted row per iteration, nothing else changed, no range call. -/
theorem insertLoopKeyed_ok_char (env : Env) (stmt : String) :
    ∀ (n : Nat) (i : Int) (acc : List String) (s : St) (ids : List String) (s' : St),
      insertLoopKeyed env stmt (genUUIDStr env) insertRowUUIDChar n i acc s = (.ok ids, s') →
      ids.length = acc.length + n ∧
      s'.mysql.uuidChar.length = s.mysql.uuidChar.length + n ∧
      s'.mysql.auto = s.mysql.auto ∧ s'.mysql.uuidBin = s.mysql.uuidBin ∧
      s'.pg = s.pg ∧ rangeCalls s'.log = rangeCalls s.log := by
  intro n
  induction n with
  | zero =>
    intro i acc s ids s' hc
    simp only [insertLoopKeyed, M.pure_eq] at hc
    injection hc with h1 h2
    injection h1 with h1
    subst h1
    subst h2
    exact ⟨by omega, by omega, rfl, rfl, rfl, rfl⟩
  | succ n ih =>
    intro i acc s ids s' hc
    simp only [insertLoopKeyed] at hc
    rw [bind_ok_iff] at hc
    obtain ⟨k, s1, hgen, hc⟩ := hc
    rw [genUUIDStr_eq] at hgen
    injection hgen with hg1 hg2
    injection hg1 with hg1
    subst hg1
    subst hg2
    rw [bind_ok_iff] at hc
    obtain ⟨v, s2, hstep, hc⟩ := hc
    obtain ⟨hfail, hs2⟩ := dbExec_ok hstep
    obtain ⟨ha, hb, hd, he, hf, hg⟩ := ih (i + 1) _ s2 ids s' hc
    subst hs2
    refine ⟨?_, ?_, hd, he, hf, hg.trans (rangeCalls_snoc_nonrange _ _ rfl)⟩
    · simp only [List.length_append, List.length_cons, List.length_nil] at ha
      omega
    · rw [hb]
      simp [insertRowUUIDChar]
      omega

/-- Success of the BINARY(16) insert loop. -/
theorem insertLoopKeyed_ok_bin (env : Env) (stmt : String) :
    ∀ (n : Nat) (i : Int) (acc : List (List Nat)) (s : St) (ids : List (List Nat)) (s' : St),
      insertLoopKeyed env stmt (do let u ← genUUID env; pure (UUIDToBytes u))
          insertRowUUIDBin n i acc s = (.ok ids, s') →
      ids.length = acc.length + n ∧
      s'.mysql.uuidBin.length = s.mysql.uuidBin.length + n ∧
      s'.mysql.auto = s.mysql.auto ∧ s'.mysql.uuidChar = s.mysql.uuidChar ∧
      s'.pg = s.pg ∧ rangeCalls s'.log = rangeCalls s.log := by
  intro n
  induction n with
  | zero =>
    intro i acc s ids s' hc
    simp only [insertLoopKeyed, M.pure_eq] at hc
    injection hc with h1 h2
    injection h1 with h1
    subst h1
    subst h2
    exact ⟨by omega, by omega, rfl, rfl, rfl, rfl⟩
  | succ n ih =>
    intro i acc s ids s' hc
    simp only [insertLoopKeyed] at hc
    rw [bind_ok_iff] at hc
    obtain ⟨k, s1, hgen, hc⟩ := hc
    rw [genBin_eq] at hgen
    injection hgen with hg1 hg2
    injection hg1 with hg1
    subst hg1
    subst hg2
    rw [bind_ok_iff] at hc
    obtain ⟨v, s2, hstep, hc⟩ := hc
    obtain ⟨hfail, hs2⟩ := dbExec_ok hstep
    obtain ⟨ha, hb, hd, he, hf, hg⟩ := ih (i + 1) _ s2 ids s' hc
    subst hs2
    refine ⟨?_, ?_, hd, he, hf, hg.trans (rangeCalls_snoc_nonrange _ _ rfl)⟩
    · simp only [List.length_append, List.length_cons, List.length_nil] at ha
      omega
    · rw [hb]
      simp [insertRowUUIDBin]
      omega

/-- Success of the PostgreSQL UUID insert loop. -/
theorem insertLoopKeyed_ok_pgu (env : Env) (stmt : String) :
    ∀ (n : Nat) (i : Int) (acc : List UUID) (s : St) (ids : List UUID) (s' : St),
      insertLoopKeyed env stmt (genUUID env) insertRowPGUUID n i acc s = (.ok ids, s') →
      ids.length = acc.length + n ∧
      s'.pg.uuid.length = s.pg.uuid.length + n ∧
      s'.pg.auto = s.pg.auto ∧ s'.mysql = s.mysql ∧
      rangeCalls s'.log = rangeCalls s.log := by
  intro n
  induction n with
  | zero =>
    intro i acc s ids s' hc
    simp only [insertLoopKeyed, M.pure_eq] at hc
    injection hc with h1 h2
    injection h1 with h1
    subst h1
    subst h2
    exact ⟨by omega, by omega, rfl, rfl, rfl⟩
  | succ n ih =>
    intro i acc s ids s' hc
    simp only [insertLoopKeyed] at hc
    rw [bind_ok_iff] at hc
    obtain ⟨k, s1, hgen, hc⟩ := hc
    rw [genUUID_eq] at hgen
    injection hgen with hg1 hg2
    injection hg1 with hg1
    subst hg1
    subst hg2
    rw [bind_ok_iff] at hc
    obtain ⟨v, s2, hstep, hc⟩ := hc
    obtain ⟨hfail, hs2⟩ := dbExec_ok hstep
    obtain ⟨ha, hb, hd, he, hf⟩ := ih (i + 1) _ s2 ids s' hc
    subst hs2
    refine ⟨?_, ?_, hd, he, hf.trans (rangeCalls_snoc_nonrange _ _ rfl)⟩
    · simp only [List.length_append, List.length_cons, List.length_nil] at ha
      omega
    · rw [hb]
      simp [insertRowPGUUID]
      omega

/-- Success inversion for `benchPGAuto`, mirror of `benchMySQLAuto_ok`. -/
theorem benchPGAuto_ok {env : Env} {rows lookups : Int} {s : St} {r : Result} {s' : St}
    (hc : benchPGAuto env rows lookups s = (.ok r, s')) :
    ∃ ids : List Int,
      ids.length = s.pg.auto.length + rows.toNat ∧
      List.Sorted (· ≤ ·) ids ∧
      r.DB = "postgres" ∧ r.Table = "bench_auto" ∧ r.InsertRows = rows ∧
      r.PointLookupCount = ((takeSample ids lookups).length : Int) ∧
      rangeCalls s'.log = rangeCalls s.log ++
        [Ev.call (SQLOp.selectIds "SELECT id FROM bench_auto ORDER BY id" ids),
         Ev.call (SQLOp.between "SELECT COUNT(*) FROM bench_auto WHERE id BETWEEN $1 AND $2"
            (autoRangeBounds ids).1 (autoRangeBounds ids).2)] := by
  unfold benchPGAuto at hc
  rw [bind_ok_iff] at hc
  obtain ⟨u0, sA, h0, hc⟩ := hc
  rw [traceEnter_eq] at h0
  injection h0 with h0a h0b
  subst h0b
  rw [bind_ok_iff] at hc
  obtain ⟨u1, sB, h1, hc⟩ := hc
  obtain ⟨hf1, hsB⟩ := dbExec_ok h1
  subst hsB
  rw [bind_ok_iff] at hc
  obtain ⟨t0, sC, h2, hc⟩ := hc
  rw [readClock_eq] at h2
  injection h2 with h2a h2b
  subst h2b
  rw [bind_ok_iff] at hc
  obtain ⟨u2, sD, hloop, hc⟩ := hc
  rw [bind_ok_iff] at hc
  obtain ⟨t1, sE, h3, hc⟩ := hc
  rw [readClock_eq] at h3
  injection h3 with h3a h3b
  subst h3b
  rw [bind_ok_iff] at hc
  obtain ⟨ids, sF, hsel, hc⟩ := hc
  obtain ⟨hf2, hids, hsF⟩ := dbSelectIds_ok hsel
  subst hsF
  rw [bind_ok_iff] at hc
  obtain ⟨u3, sG, h4, hc⟩ := hc
  obtain ⟨hf3, hsG⟩ := dbExec_ok h4
  subst hsG
  rw [bind_ok_iff] at hc
  obtain ⟨t2, sH, h5, hc⟩ := hc
  rw [readClock_eq] at h5
  injection h5 with h5a h5b
  subst h5b
  rw [bind_ok_iff] at hc
  obtain ⟨u4, sI, hlk, hc⟩ := hc
  rw [bind_ok_iff] at hc
  obtain ⟨t3, sJ, h6, hc⟩ := hc
  rw [readClock_eq] at h6
  injection h6 with h6a h6b
  subst h6b
  rw [bind_ok_iff] at hc
  obtain ⟨t4, sK, h7, hc⟩ := hc
  rw [readClock_eq] at h7
  injection h7 with h7a h7b
  subst h7b
  rw [bind_ok_iff] at hc
  obtain ⟨cv, sL, hbt, hc⟩ := hc
  obtain ⟨hf4, hsL⟩ := dbBetweenCount_ok hbt
  subst hsL
  rw [bind_ok_iff] at hc
  obtain ⟨t5, sM, h8, hc⟩ := hc
  rw [readClock_eq] at h8
  injection h8 with h8a h8b
  subst h8b
  rw [M.pure_eq] at hc
  injection hc with hr hs'
  injection hr with hr
  subst hr
  subst hs'
  obtain ⟨L1, L2, L3, L4⟩ :=
    insertLoopAuto_ok_pg env _ rows.toNat 0 _ u2 sD hloop
  obtain ⟨K1, K2, K3⟩ := lookupLoop_ok env _ _ _ _ u4 sI hlk
  refine ⟨ids, ?_, ?_, rfl, rfl, rfl, rfl, ?_⟩
  · have hlen : ids.length = sD.pg.auto.length := by
      rw [hids, List.length_insertionSort, List.length_map]
    exact hlen.trans L1
  · rw [hids]
    exact List.sorted_insertionSort _ _
  · dsimp only [id_eq] at K3 L4 hids
    rw [← hids] at K3
    dsimp only [id_eq]
    rw [rangeCalls_snoc_between, K3, rangeCalls_snoc_prepare, rangeCalls_snoc_selectIds, L4,
      rangeCalls_snoc_prepare, rangeCalls_snoc_phase]
    simp

/-- Success inversion for `benchMySQLUUIDChar`: the generated key list
has exactly `rows` entries, the record carries the constant names, the
configured row count and the sample length, and the only range/scan
query is one ORDER BY scan capped at 10000 that read back
`min 10000 (table size)` keys. -/
theorem benchMySQLUUIDChar_ok {env : Env} {rows lookups : Int} {s : St} {r : Result} {s' : St}
    (hc : benchMySQLUUIDChar env rows lookups s = (.ok r, s')) :
    ∃ ids : List String,
      ids.length = rows.toNat ∧
      r.DB = "mysql" ∧ r.Table = "bench_uuid_char" ∧ r.InsertRows = rows ∧
      r.PointLookupCount = ((takeSample ids lookups).length : Int) ∧
      rangeCalls s'.log = rangeCalls s.log ++
        [Ev.call (SQLOp.orderLimit "SELECT id FROM bench_uuid_char ORDER BY id LIMIT 10000"
          10000 (min 10000 (s.mysql.uuidChar.length + rows.toNat)))] := by
  unfold benchMySQLUUIDChar at hc
  rw [bind_ok_iff] at hc
  obtain ⟨u0, sA, h0, hc⟩ := hc
  rw [traceEnter_eq] at h0
  injection h0 with h0a h0b
  subst h0b
  rw [bind_ok_iff] at hc
  obtain ⟨u1, sB, h1, hc⟩ := hc
  obtain ⟨hf1, hsB⟩ := dbExec_ok h1
  subst hsB
  rw [bind_ok_iff] at hc
  obtain ⟨t0, sC, h2, hc⟩ := hc
  rw [readClock_eq] at h2
  injection h2 with h2a h2b
  subst h2b
  rw [bind_ok_iff] at hc
  obtain ⟨ids, sD, hloop, hc⟩ := hc
  rw [bind_ok_iff] at hc
  obtain ⟨t1, sE, h3, hc⟩ := hc
  rw [readClock_eq] at h3
  injection h3 with h3a h3b
  subst h3b
  rw [bind_ok_iff] at hc
  obtain ⟨u3, sG, h4, hc⟩ := hc
  obtain ⟨hf3, hsG⟩ := dbExec_ok h4
  subst hsG
  rw [bind_ok_iff] at hc
  obtain ⟨t2, sH, h5, hc⟩ := hc
  rw [readClock_eq] at h5
  injection h5 with h5a h5b
  subst h5b
  rw [bind_ok_iff] at hc
  obtain ⟨u4, sI, hlk, hc⟩ := hc
  rw [bind_ok_iff] at hc
  obtain ⟨t3, sJ, h6, hc⟩ := hc
  rw [readClock_eq] at h6
  injection h6 with h6a h6b
  subst h6b
  rw [bind_ok_iff] at hc
  obtain ⟨t4, sK, h7, hc⟩ := hc
  rw [readClock_eq] at h7
  injection h7 with h7a h7b
  subst h7b
  rw [bind_ok_iff] at hc
  obtain ⟨outv, sL, hscan, hc⟩ := hc
  obtain ⟨hf4, hout, hsL⟩ := dbOrderScan_ok hscan
  subst hsL
  rw [bind_ok_iff] at hc
  obtain ⟨t5, sM, h8, hc⟩ := hc
  rw [readClock_eq] at h8
  injection h8 with h8a h8b
  subst h8b
  rw [M.pure_eq] at hc
  injection hc with hr hs'
  injection hr with hr
  subst hr
  subst hs'
  obtain ⟨ha, hb, hd, he, hf5, hg⟩ :=
    insertLoopKeyed_ok_char env _ rows.toNat 0 [] _ ids sD hloop
  obtain ⟨K1, K2, K3⟩ := lookupLoop_ok env _ _ _ _ u4 sI hlk
  refine ⟨ids, by simpa using ha, rfl, rfl, rfl, rfl, ?_⟩
  dsimp only [id_eq] at K1 K3 hg
  have huc : sI.mysql.uuidChar.length = s.mysql.uuidChar.length + rows.toNat := by
    rw [K1]
    exact hb
  dsimp only [id_eq]
  simp only [List.length_take, List.length_insertionSort, List.length_map]
  rw [huc]
  rw [rangeCalls_snoc_orderLimit, K3, rangeCalls_snoc_prepare, hg,
    rangeCalls_snoc_prepare, rangeCalls_snoc_phase]

/-- Success inversion for `benchMySQLUUIDBin`, mirror of the CHAR(36)
variant with binary keys. -/
theorem benchMySQLUUIDBin_ok {env : Env} {rows lookups : Int} {s : St} {r : Result} {s' : St}
    (hc : benchMySQLUUIDBin env rows lookups s = (.ok r, s')) :
    ∃ ids : List (List Nat),
      ids.length = rows.toNat ∧
      r.DB = "mysql" ∧ r.Table = "bench_uuid_bin" ∧ r.InsertRows = rows ∧
      r.PointLookupCount = ((takeSample ids lookups).length : Int) ∧
      rangeCalls s'.log = rangeCalls s.log ++
        [Ev.call (SQLOp.orderLimit "SELECT id FROM bench_uuid_bin ORDER BY id LIMIT 10000"
          10000 (min 10000 (s.mysql.uuidBin.length + rows.toNat)))] := by
  unfold benchMySQLUUIDBin at hc
  rw [bind_ok_iff] at hc
  obtain ⟨u0, sA, h0, hc⟩ := hc
  rw [traceEnter_eq] at h0
  injection h0 with h0a h0b
  subst h0b
  rw [bind_ok_iff] at hc
  obtain ⟨u1, sB, h1, hc⟩ := hc
  obtain ⟨hf1, hsB⟩ := dbExec_ok h1
  subst hsB
  rw [bind_ok_iff] at hc
  obtain ⟨t0, sC, h2, hc⟩ := hc
  rw [readClock_eq] at h2
  injection h2 with h2a h2b
  subst h2b
  rw [bind_ok_iff] at hc
  obtain ⟨ids, sD, hloop, hc⟩ := hc
  rw [bind_ok_iff] at hc
  obtain ⟨t1, sE, h3, hc⟩ := hc
  rw [readClock_eq] at h3
  injection h3 with h3a h3b
  subst h3b
  rw [bind_ok_iff] at hc
  obtain ⟨u3, sG, h4, hc⟩ := hc
  obtain ⟨hf3, hsG⟩ := dbExec_ok h4
  subst hsG
  rw [bind_ok_iff] at hc
  obtain ⟨t2, sH, h5, hc⟩ := hc
  rw [readClock_eq] at h5
  injection h5 with h5a h5b
  subst h5b
  rw [bind_ok_iff] at hc
  obtain ⟨u4, sI, hlk, hc⟩ := hc
  rw [bind_ok_iff] at hc
  obtain ⟨t3, sJ, h6, hc⟩ := hc
  rw [readClock_eq] at h6
  injection h6 with h6a h6b
  subst h6b
  rw [bind_ok_iff] at hc
  obtain ⟨t4, sK, h7, hc⟩ := hc
  rw [readClock_eq] at h7
  injection h7 with h7a h7b
  subst h7b
  rw [bind_ok_iff] at hc
  obtain ⟨outv, sL, hscan, hc⟩ := hc
  obtain ⟨hf4, hout, hsL⟩ := dbOrderScan_ok hscan
  subst hsL
  rw [bind_ok_iff] at hc
  obtain ⟨t5, sM, h8, hc⟩ := hc
  rw [readClock_eq] at h8
  injection h8 with h8a h8b
  subst h8b
  rw [M.pure_eq] at hc
  injection hc with hr hs'
  injection hr with hr
  subst hr
  subst hs'
  obtain ⟨ha, hb, hd, he, hf5, hg⟩ :=
    insertLoopKeyed_ok_bin env _ rows.toNat 0 [] _ ids sD hloop
  obtain ⟨K1, K2, K3⟩ := lookupLoop_ok env _ _ _ _ u4 sI hlk
  refine ⟨ids, by simpa using ha, rfl, rfl, rfl, rfl, ?_⟩
  dsimp only [id_eq] at K1 K3 hg
  have huc : sI.mysql.uuidBin.length = s.mysql.uuidBin.length + rows.toNat := by
    rw [K1]
    exact hb
  dsimp only [id_eq]
  simp only [List.length_take, List.length_insertionSort, List.length_map]
  rw [huc]
  rw [rangeCalls_snoc_orderLimit, K3, rangeCalls_snoc_prepare, hg,
    rangeCalls_snoc_prepare, rangeCalls_snoc_phase]

/-- Success inversion for `benchPGUUID`, mirror of the CHAR(36)
variant on the PostgreSQL UUID table. -/
theorem benchPGUUID_ok {env : Env} {rows lookups : Int} {s : St} {r : Result} {s' : St}
    (hc : benchPGUUID env rows lookups s = (.ok r, s')) :
    ∃ ids : List UUID,
      ids.length = rows.toNat ∧
      r.DB = "postgres" ∧ r.Table = "bench_uuid" ∧ r.InsertRows = rows ∧
      r.PointLookupCount = ((takeSample ids lookups).length : Int) ∧
      rangeCalls s'.log = rangeCalls s.log ++
        [Ev.call (SQLOp.orderLimit "SELECT id FROM bench_uuid ORDER BY id LIMIT 10000"
          10000 (min 10000 (s.pg.uuid.length + rows.toNat)))] := by
  unfold benchPGUUID at hc
  rw [bind_ok_iff] at hc
  obtain ⟨u0, sA, h0, hc⟩ := hc
  rw [traceEnter_eq] at h0
  injection h0 with h0a h0b
  subst h0b
  rw [bind_ok_iff] at hc
  obtain ⟨u1, sB, h1, hc⟩ := hc
  obtain ⟨hf1, hsB⟩ := dbExec_ok h1
  subst hsB
  rw [bind_ok_iff] at hc
  obtain ⟨t0, sC, h2, hc⟩ := hc
  rw [readClock_eq] at h2
  injection h2 with h2a h2b
  subst h2b
  rw [bind_ok_iff] at hc
  obtain ⟨ids, sD, hloop, hc⟩ := hc
  rw [bind_ok_iff] at hc
  obtain ⟨t1, sE, h3, hc⟩ := hc
  rw [readClock_eq] at h3
  injection h3 with h3a h3b
  subst h3b
  rw [bind_ok_iff] at hc
  obtain ⟨u3, sG, h4, hc⟩ := hc
  obtain ⟨hf3, hsG⟩ := dbExec_ok h4
  subst hsG
  rw [bind_ok_iff] at hc
  obtain ⟨t2, sH, h5, hc⟩ := hc
  rw [readClock_eq] at h5
  injection h5 with h5a h5b
  subst h5b
  rw [bind_ok_iff] at hc
  obtain ⟨u4, sI, hlk, hc⟩ := hc
  rw [bind_ok_iff] at hc
  obtain ⟨t3, sJ, h6, hc⟩ := hc
  rw [readClock_eq] at h6
  injection h6 with h6a h6b
  subst h6b
  rw [bind_ok_iff] at hc
  obtain ⟨t4, sK, h7, hc⟩ := hc
  rw [readClock_eq] at h7
  injection h7 with h7a h7b
  subst h7b
  rw [bind_ok_iff] at hc
  obtain ⟨outv, sL, hscan, hc⟩ := hc
  obtain ⟨hf4, hout, hsL⟩ := dbOrderScan_ok hscan
  subst hsL
  rw [bind_ok_iff] at hc
  obtain ⟨t5, sM, h8, hc⟩ := hc
  rw [readClock_eq] at h8
  injection h8 with h8a h8b
  subst h8b
  rw [M.pure_eq] at hc
  injection hc with hr hs'
  injection hr with hr
  subst hr
  subst hs'
  obtain ⟨ha, hb, hd, he, hf5⟩ :=
    insertLoopKeyed_ok_pgu env _ rows.toNat 0 [] _ ids sD hloop
  obtain ⟨K1, K2, K3⟩ := lookupLoop_ok env _ _ _ _ u4 sI hlk
  refine ⟨ids, by simpa using ha, rfl, rfl, rfl, rfl, ?_⟩
  dsimp only [id_eq] at K2 K3 hf5
  have huc : sI.pg.uuid.length = s.pg.uuid.length + rows.toNat := by
    rw [K2]
    exact hb
  dsimp only [id_eq]
  simp only [List.length_take, List.length_insertionSort, List.length_map]
  rw [huc]
  rw [rangeCalls_snoc_orderLimit, K3, rangeCalls_snoc_prepare, hf5,
    rangeCalls_snoc_prepare, rangeCalls_snoc_phase]

/-- The sample length is exactly `min lookups (number of keys)` for a
positive lookup count. -/
theorem takeSample_length {κ : Type} (ids : List κ) (lookups : Int) (hl : 0 < lookups) :
    ((takeSample ids lookups).length : Int) = min lookups (ids.length : Int) := by
  unfold takeSample
  split
  · rw [List.length_take]
    omega
  · omega

/-- Claim C1: every error-free run of any of the five variant benchmark
functions with positive configured `rows` and `lookups` reports a
`PointLookupCount` of at most `min lookups rows`; for the two
auto-increment variants the table starts empty, as `RunAll`'s schema
reset guarantees, since their sample comes from a read-back of the
table rather than the in-memory key list. -/
theorem claim1_point_lookup_bound :
    (∀ (env : Env) (rows lookups : Int) (s : St) (r : Result) (s' : St),
        s.mysql.auto = [] → 0 < rows → 0 < lookups →
        benchMySQLAuto env rows lookups s = (.ok r, s') →
        r.PointLookupCount ≤ min lookups rows) ∧
    (∀ (env : Env) (rows lookups : Int) (s : St) (r : Result) (s' : St),
        0 < rows → 0 < lookups →
        benchMySQLUUIDChar env rows lookups s = (.ok r, s') →
        r.PointLookupCount ≤ min lookups rows) ∧
    (∀ (env : Env) (rows lookups : Int) (s : St) (r : Result) (s' : St),
        0 < rows → 0 < lookups →
        benchMySQLUUIDBin env rows lookups s = (.ok r, s') →
        r.PointLookupCount ≤ min lookups rows) ∧
    (∀ (env : Env) (rows lookups : Int) (s : St) (r : Result) (s' : St),
        s.pg.auto = [] → 0 < rows → 0 < lookups →
        benchPGAuto env rows lookups s = (.ok r, s') →
        r.PointLookupCount ≤ min lookups rows) ∧
    (∀ (env : Env) (rows lookups : Int) (s : St) (r : Result) (s' : St),
        0 < rows → 0 < lookups →
        benchPGUUID env rows lookups s = (.ok r, s') →
        r.PointLookupCount ≤ min lookups rows) := by
  refine ⟨?_, ?_, ?_, ?_, ?_⟩
  · intro env rows lookups s r s' hemp hr hl hc
    obtain ⟨ids, hlen, _, _, _, _, hpl, _⟩ := benchMySQLAuto_ok hc
    rw [hemp] at hlen
    simp only [List.length_nil] at hlen
    rw [hpl, takeSample_length ids lookups hl]
    omega
  · intro env rows lookups s r s' hr hl hc
    obtain ⟨ids, hlen, _, _, _, hpl, _⟩ := benchMySQLUUIDChar_ok hc
    rw [hpl, takeSample_length ids lookups hl]
    omega
  · intro env rows lookups s r s' hr hl hc
    obtain ⟨ids, hlen, _, _, _, hpl, _⟩ := benchMySQLUUIDBin_ok hc
    rw [hpl, takeSample_length ids lookups hl]
    omega
  · intro env rows lookups s r s' hemp hr hl hc
    obtain ⟨ids, hlen, _, _, _, _, hpl, _⟩ := benchPGAuto_ok hc
    rw [hemp] at hlen
    simp only [List.length_nil] at hlen
    rw [hpl, takeSample_length ids lookups hl]
    omega
  · intro env rows lookups s r s' hr hl hc
    obtain ⟨ids, hlen, _, _, _, hpl, _⟩ := benchPGUUID_ok hc
    rw [hpl, takeSample_length ids lookups hl]
    omega

set_option maxHeartbeats 4000000 in
/-- Witness for C1: a fault-free one-row, one-lookup run of the MySQL
auto-increment benchmark from the empty state. -/
theorem claim1_point_lookup_bound_witness :
    ∃ r s', benchMySQLAuto env0 1 1 st0 = (.ok r, s') ∧
      r.PointLookupCount ≤ min 1 1 := by
  obtain ⟨r, s', h⟩ : ∃ r s', benchMySQLAuto env0 1 1 st0 = (.ok r, s') := ⟨_, _, rfl⟩
  exact ⟨r, s', h,
    claim1_point_lookup_bound.1 env0 1 1 st0 r s' rfl (by decide) (by decide) h⟩

/-- Claim C4: an error-free `RunAll` yields exactly five records, in
the fixed engine/table order, each carrying the configured row count. -/
theorem claim4_runall_results :
    ∀ (env : Env) (cfg : Config) (s : St) (results : List Result) (s' : St),
      RunAll env cfg s = (.ok results, s') →
      ∃ r1 r2 r3 r4 r5,
        results = [r1, r2, r3, r4, r5] ∧
        r1.DB = "mysql" ∧ r1.Table = "bench_auto" ∧
        r2.DB = "mysql" ∧ r2.Table = "bench_uuid_char" ∧
        r3.DB = "mysql" ∧ r3.Table = "bench_uuid_bin" ∧
        r4.DB = "postgres" ∧ r4.Table = "bench_auto" ∧
        r5.DB = "postgres" ∧ r5.Table = "bench_uuid" ∧
        (∀ r ∈ results, r.InsertRows = cfg.Rows) := by
  intro env cfg s results s' hc
  unfold RunAll at hc
  rw [bind_ok_iff] at hc
  obtain ⟨u1, s1, hm, hc⟩ := hc
  rw [bind_ok_iff] at hc
  obtain ⟨u2, s2, hp, hc⟩ := hc
  rw [bind_ok_iff] at hc
  obtain ⟨r1, s3, hb1, hc⟩ := hc
  rw [bind_ok_iff] at hc
  obtain ⟨r2, s4, hb2, hc⟩ := hc
  rw [bind_ok_iff] at hc
  obtain ⟨r3, s5, hb3, hc⟩ := hc
  rw [bind_ok_iff] at hc
  obtain ⟨r4, s6, hb4, hc⟩ := hc
  rw [bind_ok_iff] at hc
  obtain ⟨r5, s7, hb5, hc⟩ := hc
  rw [M.pure_eq] at hc
  injection hc with hres hss
  injection hres with hres
  subst hres
  obtain ⟨ids1, _, _, hdb1, htb1, hir1, _, _⟩ := benchMySQLAuto_ok hb1
  obtain ⟨ids2, _, hdb2, htb2, hir2, _, _⟩ := benchMySQLUUIDChar_ok hb2
  obtain ⟨ids3, _, hdb3, htb3, hir3, _, _⟩ := benchMySQLUUIDBin_ok hb3
  obtain ⟨ids4, _, _, hdb4, htb4, hir4, _, _⟩ := benchPGAuto_ok hb4
  obtain ⟨ids5, _, hdb5, htb5, hir5, _, _⟩ := benchPGUUID_ok hb5
  refine ⟨r1, r2, r3, r4, r5, rfl, hdb1, htb1, hdb2, htb2, hdb3, htb3,
    hdb4, htb4, hdb5, htb5, ?_⟩
  intro r hr
  simp only [List.mem_cons, List.not_mem_nil, or_false] at hr
  rcases hr with rfl | rfl | rfl | rfl | rfl <;> assumption

/-- The fault-free witness run: schema setups from the empty state. -/
theorem runW_setupM : setupMySQL env0 st0 = (.ok (), stW1) := rfl

/-- PostgreSQL setup step of the witness run. -/
theorem runW_setupP : setupPostgres env0 stW1 = (.ok (), stW2) := rfl

set_option maxHeartbeats 8000000 in
/-- A computation that reports success and lands in a known state
produced some value. -/
theorem exists_ok_of_isOk {α : Type} (p : Except Err α × St) (st' : St)
    (h1 : exceptIsOk p.1 = true) (h2 : p.2 = st') : ∃ a, p = (.ok a, st') := by
  rcases p with ⟨res, s⟩
  cases res with
  | ok a =>
    subst h2
    exact ⟨a, rfl⟩
  | error e => simp [exceptIsOk] at h1

set_option maxHeartbeats 8000000 in
/-- First variant of the witness run. -/
theorem runW_b1 : ∃ r, benchMySQLAuto env0 1 1 stW2 = (.ok r, stW3) :=
  exists_ok_of_isOk (benchMySQLAuto env0 1 1 stW2) stW3 (by decide) (by decide)

set_option maxHeartbeats 8000000 in
/-- Second variant of the witness run. -/
theorem runW_b2 : ∃ r, benchMySQLUUIDChar env0 1 1 stW3 = (.ok r, stW4) :=
  exists_ok_of_isOk (benchMySQLUUIDChar env0 1 1 stW3) stW4 (by decide) (by decide)

set_option maxHeartbeats 8000000 in
/-- Third variant of the witness run. -/
theorem runW_b3 : ∃ r, benchMySQLUUIDBin env0 1 1 stW4 = (.ok r, stW5) :=
  exists_ok_of_isOk (benchMySQLUUIDBin env0 1 1 stW4) stW5 (by decide) (by decide)

set_option maxHeartbeats 8000000 in
/-- Fourth variant of the witness run. -/
theorem runW_b4 : ∃ r, benchPGAuto env0 1 1 stW5 = (.ok r, stW6) :=
  exists_ok_of_isOk (benchPGAuto env0 1 1 stW5) stW6 (by decide) (by decide)

set_option maxHeartbeats 8000000 in
/-- Fifth variant of the witness run. -/
theorem runW_b5 : ∃ r, benchPGUUID env0 1 1 stW6 = (.ok r, stW7) :=
  exists_ok_of_isOk (benchPGUUID env0 1 1 stW6) stW7 (by decide) (by decide)

/-- Witness for C4: a complete fault-free run with one row and one
lookup from the empty state, assembled phase by phase. -/
theorem claim4_runall_results_witness :
    ∃ results s', RunAll env0 cfgOne st0 = (.ok results, s') ∧
      ∃ r1 r2 r3 r4 r5,
        results = [r1, r2, r3, r4, r5] ∧
        r1.DB = "mysql" ∧ r1.Table = "bench_auto" ∧
        r2.DB = "mysql" ∧ r2.Table = "bench_uuid_char" ∧
        r3.DB = "mysql" ∧ r3.Table = "bench_uuid_bin" ∧
        r4.DB = "postgres" ∧ r4.Table = "bench_auto" ∧
        r5.DB = "postgres" ∧ r5.Table = "bench_uuid" ∧
        (∀ r ∈ results, r.InsertRows = cfgOne.Rows) := by
  obtain ⟨r1, hb1⟩ := runW_b1
  obtain ⟨r2, hb2⟩ := runW_b2
  obtain ⟨r3, hb3⟩ := runW_b3
  obtain ⟨r4, hb4⟩ := runW_b4
  obtain ⟨r5, hb5⟩ := runW_b5
  have hR : RunAll env0 cfgOne st0 = (.ok [r1, r2, r3, r4, r5], stW7) := by
    unfold RunAll
    rw [show cfgOne.Rows = 1 from rfl, show cfgOne.Lookups = 1 from rfl,
      bind_ok_step _ _ _ _ _ runW_setupM,
      bind_ok_step _ _ _ _ _ runW_setupP,
      bind_ok_step _ _ _ _ _ hb1,
      bind_ok_step _ _ _ _ _ hb2,
      bind_ok_step _ _ _ _ _ hb3,
      bind_ok_step _ _ _ _ _ hb4,
      bind_ok_step _ _ _ _ _ hb5,
      M.pure_eq]
  exact ⟨_, _, hR, claim4_runall_results env0 cfgOne st0 _ stW7 hR⟩

/-- Binding preserves the phase trace when both halves do. -/
theorem phases_bind {α β : Type} {x : M α} {f : α → M β}
    (hx : ∀ s, phasesOf ((x s).2.log) = phasesOf s.log)
    (hf : ∀ a s, phasesOf ((f a s).2.log) = phasesOf s.log) :
    ∀ s, phasesOf (((x >>= f) s).2.log) = phasesOf s.log := by
  intro s
  rw [M.bind_eq]
  rcases h : x s with ⟨res, s1⟩
  have hx1 : phasesOf s1.log = phasesOf s.log := by
    have hxs := hx s
    rw [h] at hxs
    exact hxs
  cases res with
  | ok a =>
    dsimp only
    rw [hf a s1, hx1]
  | error e =>
    dsimp only
    exact hx1

/-- Pure computations preserve the phase trace. -/
theorem phases_pure {α : Type} (a : α) :
    ∀ s : St, phasesOf (((pure a : M α) s).2.log) = phasesOf s.log := fun _ => rfl

/-- Statement execution logs only a call event. -/
theorem phases_dbExec (env : Env) (op : SQLOp) (f : St → St) (hf : ∀ s, (f s).log = s.log) :
    ∀ s, phasesOf ((dbExec env op f s).2.log) = phasesOf s.log := by
  intro s
  unfold dbExec
  rcases env.fail s.callIdx with _ | e
  · simp [hf, phasesOf_append, phasesOf_call]
  · simp [phasesOf_append, phasesOf_call]

/-- An id read-back logs only a call event. -/
theorem phases_dbSelectIds (env : Env) (stmt : String) (sel : St → List Int) :
    ∀ s, phasesOf ((dbSelectIds env stmt sel s).2.log) = phasesOf s.log := by
  intro s
  unfold dbSelectIds
  rcases env.fail s.callIdx with _ | e
  · simp [phasesOf_append, phasesOf_call]
  · simp [phasesOf_append, phasesOf_call]

/-- An ORDER BY scan logs only a call event. -/
theorem phases_dbOrderScan {κ : Type} (env : Env) (stmt : String) (limit : Nat)
    (sortedKeys : St → List κ) :
    ∀ s, phasesOf ((dbOrderScan env stmt limit sortedKeys s).2.log) = phasesOf s.log := by
  intro s
  unfold dbOrderScan
  rcases env.fail s.callIdx with _ | e
  · simp [phasesOf_append, phasesOf_call]
  · simp [phasesOf_append, phasesOf_call]

/-- A BETWEEN count logs only a call event. -/
theorem phases_dbBetweenCount (env : Env) (stmt : String) (lo hi : Int) (keys : St → List Int) :
    ∀ s, phasesOf ((dbBetweenCount env stmt lo hi keys s).2.log) = phasesOf s.log := by
  intro s
  unfold dbBetweenCount
  rcases env.fail s.callIdx with _ | e
  · simp [phasesOf_append, phasesOf_call]
  · simp [phasesOf_append, phasesOf_call]

/-- A point lookup logs only a call event. -/
theorem phases_dbPointLookup {κ : Type} [DecidableEq κ] (env : Env) (stmt : String) (key : κ)
    (tbl : St → List (κ × String)) :
    ∀ s, phasesOf ((dbPointLookup env stmt key tbl s).2.log) = phasesOf s.log := by
  intro s
  rw [dbPointLookup_state]
  simp [phasesOf_append, phasesOf_call]

/-- Clock reads do not log. -/
theorem phases_readClock (env : Env) :
    ∀ s, phasesOf ((readClock env s).2.log) = phasesOf s.log := fun _ => rfl

/-- String-UUID generation does not log. -/
theorem phases_genUUIDStr (env : Env) :
    ∀ s, phasesOf ((genUUIDStr env s).2.log) = phasesOf s.log := fun _ => rfl

/-- UUID generation does not log. -/
theorem phases_genUUID (env : Env) :
    ∀ s, phasesOf ((genUUID env s).2.log) = phasesOf s.log := fun _ => rfl

/-- The binary-key generator does not log. -/
theorem phases_genBin (env : Env) :
    ∀ s : St, phasesOf (((do let u ← genUUID env; pure (UUIDToBytes u) : M (List Nat)) s).2.log) =
      phasesOf s.log := fun _ => rfl

/-- Auto-increment insert loops add no phase entry, whatever happens. -/
theorem phases_insertLoopAuto (env : Env) (stmt : String) (upd : String → St → St)
    (hupd : ∀ p s, (upd p s).log = s.log) :
    ∀ (n : Nat) (i : Int) (s : St),
      phasesOf ((insertLoopAuto env stmt upd n i s).2.log) = phasesOf s.log := by
  intro n
  induction n with
  | zero => intro i s; rfl
  | succ n ih =>
    intro i s
    simp only [insertLoopAuto]
    exact phases_bind (phases_dbExec env _ _ (fun s2 => hupd _ s2)) (fun a s2 => ih (i + 1) s2) s

/-- Keyed insert loops add no phase entry, whatever happens. -/
theorem phases_insertLoopKeyed {κ : Type} (env : Env) (stmt : String) (gen : M κ)
    (upd : κ → String → St → St)
    (hgen : ∀ s, phasesOf ((gen s).2.log) = phasesOf s.log)
    (hupd : ∀ k p s, (upd k p s).log = s.log) :
    ∀ (n : Nat) (i : Int) (acc : List κ) (s : St),
      phasesOf ((insertLoopKeyed env stmt gen upd n i acc s).2.log) = phasesOf s.log := by
  intro n
  induction n with
  | zero => intro i acc s; rfl
  | succ n ih =>
    intro i acc s
    simp only [insertLoopKeyed]
    exact phases_bind hgen
      (fun k => phases_bind (phases_dbExec env _ _ (fun s2 => hupd _ _ s2))
        (fun a s2 => ih (i + 1) (acc ++ [k]) s2)) s

/-- Lookup loops add no phase entry, whatever happens. -/
theorem phases_lookupLoop {κ : Type} [DecidableEq κ] (env : Env) (stmt : String)
    (tbl : St → List (κ × String)) :
    ∀ (ks : List κ) (s : St),
      phasesOf ((lookupLoop env stmt tbl ks s).2.log) = phasesOf s.log := by
  intro ks
  induction ks with
  | nil => intro s; rfl
  | cons k rest ih =>
    intro s
    simp only [lookupLoop]
    exact phases_bind (phases_dbPointLookup env stmt k tbl) (fun a s2 => ih s2) s

/-- The setup statement loop adds no phase entry, whatever happens. -/
theorem phases_execStmts (env : Env) (wrap : String) :
    ∀ l : List (String × (St → St)), (∀ p ∈ l, ∀ s : St, (p.2 s).log = s.log) →
      ∀ s, phasesOf ((execStmts env wrap l s).2.log) = phasesOf s.log := by
  intro l
  induction l with
  | nil => intro h s; rfl
  | cons hd tl ih =>
    intro h s
    obtain ⟨stmt, f⟩ := hd
    simp only [execStmts]
    rcases hde : dbExec env (SQLOp.execStmt stmt) f s with ⟨res, s1⟩
    have h1 : phasesOf s1.log = phasesOf s.log := by
      have hp := phases_dbExec env (SQLOp.execStmt stmt) f
        (fun s2 => h (stmt, f) (List.mem_cons_self _ _) s2) s
      rw [hde] at hp
      exact hp
    cases res with
    | ok a =>
      dsimp only
      rw [ih (fun p hp => h p (List.mem_cons_of_mem _ hp)) s1, h1]
    | error e =>
      dsimp only
      exact h1

/-- A failing setup statement loop returns a wrapped error. -/
theorem execStmts_error (env : Env) (wrap : String) :
    ∀ (l : List (String × (St → St))) (s : St) (e : Err) (s' : St),
      execStmts env wrap l s = (.error e, s') → ∃ e0, e = wrap ++ e0 := by
  intro l
  induction l with
  | nil =>
    intro s e s' hc
    simp only [execStmts, M.pure_eq] at hc
    simp at hc
  | cons hd tl ih =>
    intro s e s' hc
    obtain ⟨stmt, f⟩ := hd
    simp only [execStmts] at hc
    rcases hde : dbExec env (SQLOp.execStmt stmt) f s with ⟨res, s1⟩
    rw [hde] at hc
    cases res with
    | ok a => exact ih s1 e s' hc
    | error e1 =>
      dsimp only at hc
      injection hc with h1 h2
      injection h1 with h1
      exact ⟨e1, h1.symm⟩

/-- Every statement effect in the MySQL setup list keeps the log. -/
theorem mysqlSetupStmts_log : ∀ p ∈ mysqlSetupStmts, ∀ s : St, (p.2 s).log = s.log := by
  intro p hp
  simp only [mysqlSetupStmts, List.mem_cons, List.not_mem_nil, or_false] at hp
  rcases hp with rfl | rfl | rfl | rfl | rfl | rfl <;> exact fun s => rfl

/-- Every statement effect in the PostgreSQL setup list keeps the log. -/
theorem pgSetupStmts_log : ∀ p ∈ pgSetupStmts, ∀ s : St, (p.2 s).log = s.log := by
  intro p hp
  simp only [pgSetupStmts, List.mem_cons, List.not_mem_nil, or_false] at hp
  rcases hp with rfl | rfl | rfl | rfl <;> exact fun s => rfl

/-- Running `setupMySQL` adds exactly its own phase entry, whatever happens. -/
theorem phases_setupMySQL (env : Env) :
    ∀ s, phasesOf ((setupMySQL env s).2.log) = phasesOf s.log ++ ["setupMySQL"] := by
  intro s
  unfold setupMySQL
  rw [M.bind_eq, traceEnter_eq]
  dsimp only
  rw [phases_execStmts env _ mysqlSetupStmts mysqlSetupStmts_log _]
  dsimp only
  rw [phasesOf_append, phasesOf_phase]

/-- Running `setupPostgres` adds exactly its own phase entry, whatever happens. -/
theorem phases_setupPostgres (env : Env) :
    ∀ s, phasesOf ((setupPostgres env s).2.log) = phasesOf s.log ++ ["setupPostgres"] := by
  intro s
  unfold setupPostgres
  rw [M.bind_eq, traceEnter_eq]
  dsimp only
  rw [phases_execStmts env _ pgSetupStmts pgSetupStmts_log _]
  dsimp only
  rw [phasesOf_append, phasesOf_phase]

/-- A failing `setupMySQL` returns an error wrapped with the engine name. -/
theorem setupMySQL_error {env : Env} {s : St} {e : Err} {s' : St}
    (hc : setupMySQL env s = (.error e, s')) : ∃ e0, e = "mysql setup failed: " ++ e0 := by
  unfold setupMySQL at hc
  rw [M.bind_eq, traceEnter_eq] at hc
  dsimp only at hc
  exact execStmts_error env _ mysqlSetupStmts _ e s' hc

/-- A failing `setupPostgres` returns an error wrapped with the engine name. -/
theorem setupPostgres_error {env : Env} {s : St} {e : Err} {s' : St}
    (hc : setupPostgres env s = (.error e, s')) : ∃ e0, e = "postgres setup failed: " ++ e0 := by
  unfold setupPostgres at hc
  rw [M.bind_eq, traceEnter_eq] at hc
  dsimp only at hc
  exact execStmts_error env _ pgSetupStmts _ e s' hc

/-- A phase marker followed by a phase-neutral computation adds exactly
that marker to the trace. -/
theorem phases_traceEnter_seq {α : Type} (name : String) (x : M α)
    (hx : ∀ s, phasesOf ((x s).2.log) = phasesOf s.log) :
    ∀ s, phasesOf (((traceEnter name >>= fun _ => x) s).2.log) = phasesOf s.log ++ [name] := by
  intro s
  rw [M.bind_eq, traceEnter_eq]
  dsimp only
  rw [hx]
  dsimp only
  rw [phasesOf_append, phasesOf_phase]

/-- Running `benchMySQLAuto` adds exactly its own phase entry, whatever happens. -/
theorem phases_benchMySQLAuto (env : Env) (rows lookups : Int) :
    ∀ s, phasesOf ((benchMySQLAuto env rows lookups s).2.log) =
      phasesOf s.log ++ ["benchMySQLAuto"] := by
  unfold benchMySQLAuto
  apply phases_traceEnter_seq
  apply phases_bind (phases_dbExec env _ id (fun _ => rfl))
  intro a1
  apply phases_bind (phases_readClock env)
  intro t0
  apply phases_bind (phases_insertLoopAuto env _ insertAutoRowMySQL (fun p s => rfl) rows.toNat 0)
  intro a2
  apply phases_bind (phases_readClock env)
  intro t1
  apply phases_bind (phases_dbSelectIds env _ _)
  intro ids
  apply phases_bind (phases_dbExec env _ id (fun _ => rfl))
  intro a3
  apply phases_bind (phases_readClock env)
  intro t2
  apply phases_bind (phases_lookupLoop env _ _ _)
  intro a4
  apply phases_bind (phases_readClock env)
  intro t3
  apply phases_bind (phases_readClock env)
  intro t4
  apply phases_bind (phases_dbBetweenCount env _ _ _ _)
  intro a5
  apply phases_bind (phases_readClock env)
  intro t5
  exact phases_pure _

/-- Running `benchPGAuto` adds exactly its own phase entry, whatever happens. -/
theorem phases_benchPGAuto (env : Env) (rows lookups : Int) :
    ∀ s, phasesOf ((benchPGAuto env rows lookups s).2.log) =
      phasesOf s.log ++ ["benchPGAuto"] := by
  unfold benchPGAuto
  apply phases_traceEnter_seq
  apply phases_bind (phases_dbExec env _ id (fun _ => rfl))
  intro a1
  apply phases_bind (phases_readClock env)
  intro t0
  apply phases_bind (phases_insertLoopAuto env _ insertAutoRowPG (fun p s => rfl) rows.toNat 0)
  intro a2
  apply phases_bind (phases_readClock env)
  intro t1
  apply phases_bind (phases_dbSelectIds env _ _)
  intro ids
  apply phases_bind (phases_dbExec env _ id (fun _ => rfl))
  intro a3
  apply phases_bind (phases_readClock env)
  intro t2
  apply phases_bind (phases_lookupLoop env _ _ _)
  intro a4
  apply phases_bind (phases_readClock env)
  intro t3
  apply phases_bind (phases_readClock env)
  intro t4
  apply phases_bind (phases_dbBetweenCount env _ _ _ _)
  intro a5
  apply phases_bind (phases_readClock env)
  intro t5
  exact phases_pure _

/-- Running `benchMySQLUUIDChar` adds exactly its own phase entry. -/
theorem phases_benchMySQLUUIDChar (env : Env) (rows lookups : Int) :
    ∀ s, phasesOf ((benchMySQLUUIDChar env rows lookups s).2.log) =
      phasesOf s.log ++ ["benchMySQLUUIDChar"] := by
  unfold benchMySQLUUIDChar
  apply phases_traceEnter_seq
  apply phases_bind (phases_dbExec env _ id (fun _ => rfl))
  intro a1
  apply phases_bind (phases_readClock env)
  intro t0
  apply phases_bind
    (phases_insertLoopKeyed env _ (genUUIDStr env) insertRowUUIDChar (phases_genUUIDStr env)
      (fun k p s => rfl) rows.toNat 0 [])
  intro ids
  apply phases_bind (phases_readClock env)
  intro t1
  apply phases_bind (phases_dbExec env _ id (fun _ => rfl))
  intro a3
  apply phases_bind (phases_readClock env)
  intro t2
  apply phases_bind (phases_lookupLoop env _ _ _)
  intro a4
  apply phases_bind (phases_readClock env)
  intro t3
  apply phases_bind (phases_readClock env)
  intro t4
  apply phases_bind (phases_dbOrderScan env _ _ _)
  intro a5
  apply phases_bind (phases_readClock env)
  intro t5
  exact phases_pure _

/-- Running `benchMySQLUUIDBin` adds exactly its own phase entry. -/
theorem phases_benchMySQLUUIDBin (env : Env) (rows lookups : Int) :
    ∀ s, phasesOf ((benchMySQLUUIDBin env rows lookups s).2.log) =
      phasesOf s.log ++ ["benchMySQLUUIDBin"] := by
  unfold benchMySQLUUIDBin
  apply phases_traceEnter_seq
  apply phases_bind (phases_dbExec env _ id (fun _ => rfl))
  intro a1
  apply phases_bind (phases_readClock env)
  intro t0
  apply phases_bind
    (phases_insertLoopKeyed env _ (do let u ← genUUID env; pure (UUIDToBytes u))
      insertRowUUIDBin (phases_genBin env) (fun k p s => rfl) rows.toNat 0 [])
  intro ids
  apply phases_bind (phases_readClock env)
  intro t1
  apply phases_bind (phases_dbExec env _ id (fun _ => rfl))
  intro a3
  apply phases_bind (phases_readClock env)
  intro t2
  apply phases_bind (phases_lookupLoop env _ _ _)
  intro a4
  apply phases_bind (phases_readClock env)
  intro t3
  apply phases_bind (phases_readClock env)
  intro t4
  apply phases_bind (phases_dbOrderScan env _ _ _)
  intro a5
  apply phases_bind (phases_readClock env)
  intro t5
  exact phases_pure _

/-- Running `benchPGUUID` adds exactly its own phase entry. -/
theorem phases_benchPGUUID (env : Env) (rows lookups : Int) :
    ∀ s, phasesOf ((benchPGUUID env rows lookups s).2.log) =
      phasesOf s.log ++ ["benchPGUUID"] := by
  unfold benchPGUUID
  apply phases_traceEnter_seq
  apply phases_bind (phases_dbExec env _ id (fun _ => rfl))
  intro a1
  apply phases_bind (phases_readClock env)
  intro t0
  apply phases_bind
    (phases_insertLoopKeyed env _ (genUUID env) insertRowPGUUID (phases_genUUID env)
      (fun k p s => rfl) rows.toNat 0 [])
  intro ids
  apply phases_bind (phases_readClock env)
  intro t1
  apply phases_bind (phases_dbExec env _ id (fun _ => rfl))
  intro a3
  apply phases_bind (phases_readClock env)
  intro t2
  apply phases_bind (phases_lookupLoop env _ _ _)
  intro a4
  apply phases_bind (phases_readClock env)
  intro t3
  apply phases_bind (phases_readClock env)
  intro t4
  apply phases_bind (phases_dbOrderScan env _ _ _)
  intro a5
  apply phases_bind (phases_readClock env)
  intro t5
  exact phases_pure _

/-- Claim C5: the first error at any phase aborts `RunAll` immediately.
The error value is returned unchanged together with no result list
(`.error` carries none, matching the `nil` slice), schema-setup errors
arrive wrapped with the engine name, and the ghost phase trace of the
final state shows that no later phase was entered. -/
theorem claim5_error_propagation :
    ∀ (env : Env) (cfg : Config) (s : St),
      (∀ e s1, setupMySQL env s = (.error e, s1) →
        RunAll env cfg s = (.error e, s1) ∧
        (∃ e0, e = "mysql setup failed: " ++ e0) ∧
        phasesOf s1.log = phasesOf s.log ++ ["setupMySQL"]) ∧
      (∀ s1 e s2, setupMySQL env s = (.ok (), s1) →
        setupPostgres env s1 = (.error e, s2) →
        RunAll env cfg s = (.error e, s2) ∧
        (∃ e0, e = "postgres setup failed: " ++ e0) ∧
        phasesOf s2.log = phasesOf s.log ++ ["setupMySQL", "setupPostgres"]) ∧
      (∀ s1 s2 e s3, setupMySQL env s = (.ok (), s1) →
        setupPostgres env s1 = (.ok (), s2) →
        benchMySQLAuto env cfg.Rows cfg.Lookups s2 = (.error e, s3) →
        RunAll env cfg s = (.error e, s3) ∧
        phasesOf s3.log = phasesOf s.log ++
          ["setupMySQL", "setupPostgres", "benchMySQLAuto"]) ∧
      (∀ s1 s2 s3 r1 e s4, setupMySQL env s = (.ok (), s1) →
        setupPostgres env s1 = (.ok (), s2) →
        benchMySQLAuto env cfg.Rows cfg.Lookups s2 = (.ok r1, s3) →
        benchMySQLUUIDChar env cfg.Rows cfg.Lookups s3 = (.error e, s4) →
        RunAll env cfg s = (.error e, s4) ∧
        phasesOf s4.log = phasesOf s.log ++
          ["setupMySQL", "setupPostgres", "benchMySQLAuto", "benchMySQLUUIDChar"]) ∧
      (∀ s1 s2 s3 s4 r1 r2 e s5, setupMySQL env s = (.ok (), s1) →
        setupPostgres env s1 = (.ok (), s2) →
        benchMySQLAuto env cfg.Rows cfg.Lookups s2 = (.ok r1, s3) →
        benchMySQLUUIDChar env cfg.Rows cfg.Lookups s3 = (.ok r2, s4) →
        benchMySQLUUIDBin env cfg.Rows cfg.Lookups s4 = (.error e, s5) →
        RunAll env cfg s = (.error e, s5) ∧
        phasesOf s5.log = phasesOf s.log ++
          ["setupMySQL", "setupPostgres", "benchMySQLAuto", "benchMySQLUUIDChar",
           "benchMySQLUUIDBin"]) ∧
      (∀ s1 s2 s3 s4 s5 r1 r2 r3 e s6, setupMySQL env s = (.ok (), s1) →
        setupPostgres env s1 = (.ok (), s2) →
        benchMySQLAuto env cfg.Rows cfg.Lookups s2 = (.ok r1, s3) →
        benchMySQLUUIDChar env cfg.Rows cfg.Lookups s3 = (.ok r2, s4) →
        benchMySQLUUIDBin env cfg.Rows cfg.Lookups s4 = (.ok r3, s5) →
        benchPGAuto env cfg.Rows cfg.Lookups s5 = (.error e, s6) →
        RunAll env cfg s = (.error e, s6) ∧
        phasesOf s6.log = phasesOf s.log ++
          ["setupMySQL", "setupPostgres", "benchMySQLAuto", "benchMySQLUUIDChar",
           "benchMySQLUUIDBin", "benchPGAuto"]) ∧
      (∀ s1 s2 s3 s4 s5 s6 r1 r2 r3 r4 e s7, setupMySQL env s = (.ok (), s1) →
        setupPostgres env s1 = (.ok (), s2) →
        benchMySQLAuto env cfg.Rows cfg.Lookups s2 = (.ok r1, s3) →
        benchMySQLUUIDChar env cfg.Rows cfg.Lookups s3 = (.ok r2, s4) →
        benchMySQLUUIDBin env cfg.Rows cfg.Lookups s4 = (.ok r3, s5) →
        benchPGAuto env cfg.Rows cfg.Lookups s5 = (.ok r4, s6) →
        benchPGUUID env cfg.Rows cfg.Lookups s6 = (.error e, s7) →
        RunAll env cfg s = (.error e, s7) ∧
        phasesOf s7.log = phasesOf s.log ++
          ["setupMySQL", "setupPostgres", "benchMySQLAuto", "benchMySQLUUIDChar",
           "benchMySQLUUIDBin", "benchPGAuto", "benchPGUUID"]) := by
  intro env cfg s
  refine ⟨?_, ?_, ?_, ?_, ?_, ?_, ?_⟩
  · intro e s1 h1
    refine ⟨?_, setupMySQL_error h1, ?_⟩
    · unfold RunAll
      exact bind_error_of _ _ _ _ _ h1
    · have p1 := phases_setupMySQL env s
      rw [h1] at p1
      exact p1
  · intro s1 e s2 h1 h2
    refine ⟨?_, setupPostgres_error h2, ?_⟩
    · unfold RunAll
      rw [bind_ok_step _ _ _ _ _ h1]
      exact bind_error_of _ _ _ _ _ h2
    · have p1 := phases_setupMySQL env s
      rw [h1] at p1
      have p2 := phases_setupPostgres env s1
      rw [h2] at p2
      rw [p2, p1]
      simp
  · intro s1 s2 e s3 h1 h2 h3
    refine ⟨?_, ?_⟩
    · unfold RunAll
      rw [bind_ok_step _ _ _ _ _ h1, bind_ok_step _ _ _ _ _ h2]
      exact bind_error_of _ _ _ _ _ h3
    · have p1 := phases_setupMySQL env s
      rw [h1] at p1
      have p2 := phases_setupPostgres env s1
      rw [h2] at p2
      have p3 := phases_benchMySQLAuto env cfg.Rows cfg.Lookups s2
      rw [h3] at p3
      rw [p3, p2, p1]
      simp
  · intro s1 s2 s3 r1 e s4 h1 h2 h3 h4
    refine ⟨?_, ?_⟩
    · unfold RunAll
      rw [bind_ok_step _ _ _ _ _ h1, bind_ok_step _ _ _ _ _ h2,
        bind_ok_step _ _ _ _ _ h3]
      exact bind_error_of _ _ _ _ _ h4
    · have p1 := phases_setupMySQL env s
      rw [h1] at p1
      have p2 := phases_setupPostgres env s1
      rw [h2] at p2
      have p3 := phases_benchMySQLAuto env cfg.Rows cfg.Lookups s2
      rw [h3] at p3
      have p4 := phases_benchMySQLUUIDChar env cfg.Rows cfg.Lookups s3
      rw [h4] at p4
      rw [p4, p3, p2, p1]
      simp
  · intro s1 s2 s3 s4 r1 r2 e s5 h1 h2 h3 h4 h5
    refine ⟨?_, ?_⟩
    · unfold RunAll
      rw [bind_ok_step _ _ _ _ _ h1, bind_ok_step _ _ _ _ _ h2,
        bind_ok_step _ _ _ _ _ h3, bind_ok_step _ _ _ _ _ h4]
      exact bind_error_of _ _ _ _ _ h5
    · have p1 := phases_setupMySQL env s
      rw [h1] at p1
      have p2 := phases_setupPostgres env s1
      rw [h2] at p2
      have p3 := phases_benchMySQLAuto env cfg.Rows cfg.Lookups s2
      rw [h3] at p3
      have p4 := phases_benchMySQLUUIDChar env cfg.Rows cfg.Lookups s3
      rw [h4] at p4
      have p5 := phases_benchMySQLUUIDBin env cfg.Rows cfg.Lookups s4
      rw [h5] at p5
      rw [p5, p4, p3, p2, p1]
      simp
  · intro s1 s2 s3 s4 s5 r1 r2 r3 e s6 h1 h2 h3 h4 h5 h6
    refine ⟨?_, ?_⟩
    · unfold RunAll
      rw [bind_ok_step _ _ _ _ _ h1, bind_ok_step _ _ _ _ _ h2,
        bind_ok_step _ _ _ _ _ h3, bind_ok_step _ _ _ _ _ h4,
        bind_ok_step _ _ _ _ _ h5]
      exact bind_error_of _ _ _ _ _ h6
    · have p1 := phases_setupMySQL env s
      rw [h1] at p1
      have p2 := phases_setupPostgres env s1
      rw [h2] at p2
      have p3 := phases_benchMySQLAuto env cfg.Rows cfg.Lookups s2
      rw [h3] at p3
      have p4 := phases_benchMySQLUUIDChar env cfg.Rows cfg.Lookups s3
      rw [h4] at p4
      have p5 := phases_benchMySQLUUIDBin env cfg.Rows cfg.Lookups s4
      rw [h5] at p5
      have p6 := phases_benchPGAuto env cfg.Rows cfg.Lookups s5
      rw [h6] at p6
      rw [p6, p5, p4, p3, p2, p1]
      simp
  · intro s1 s2 s3 s4 s5 s6 r1 r2 r3 r4 e s7 h1 h2 h3 h4 h5 h6 h7
    refine ⟨?_, ?_⟩
    · unfold RunAll
      rw [bind_ok_step _ _ _ _ _ h1, bind_ok_step _ _ _ _ _ h2,
        bind_ok_step _ _ _ _ _ h3, bind_ok_step _ _ _ _ _ h4,
        bind_ok_step _ _ _ _ _ h5, bind_ok_step _ _ _ _ _ h6]
      exact bind_error_of _ _ _ _ _ h7
    · have p1 := phases_setupMySQL env s
      rw [h1] at p1
      have p2 := phases_setupPostgres env s1
      rw [h2] at p2
      have p3 := phases_benchMySQLAuto env cfg.Rows cfg.Lookups s2
      rw [h3] at p3
      have p4 := phases_benchMySQLUUIDChar env cfg.Rows cfg.Lookups s3
      rw [h4] at p4
      have p5 := phases_benchMySQLUUIDBin env cfg.Rows cfg.Lookups s4
      rw [h5] at p5
      have p6 := phases_benchPGAuto env cfg.Rows cfg.Lookups s5
      rw [h6] at p6
      have p7 := phases_benchPGUUID env cfg.Rows cfg.Lookups s6
      rw [h7] at p7
      rw [p7, p6, p5, p4, p3, p2, p1]
      simp

/-- Witness for C5: with a fault injected at the very first database
call, the MySQL schema setup fails and `RunAll` aborts with that
wrapped error, having entered no benchmark phase. -/
theorem claim5_error_propagation_witness :
    ∃ e s1, setupMySQL envFail0 st0 = (.error e, s1) ∧
      RunAll envFail0 cfgOne st0 = (.error e, s1) ∧
      (∃ e0, e = "mysql setup failed: " ++ e0) ∧
      phasesOf s1.log = phasesOf st0.log ++ ["setupMySQL"] := by
  obtain ⟨e, s1, h⟩ : ∃ e s1, setupMySQL envFail0 st0 = (.error e, s1) := ⟨_, _, rfl⟩
  obtain ⟨ha, hb, hc2⟩ := (claim5_error_propagation envFail0 cfgOne st0).1 e s1 h
  exact ⟨e, s1, h, ha, hb, hc2⟩

/-- Claim C6: the range/scan phase.  For the auto-increment variants
the bounds are the 25th/75th-percentile elements of the sorted
read-back key list (both 0 when it is empty) and the phase issues
exactly one read-back followed by one inclusive BETWEEN count with
those bounds; for the UUID variants the phase instead issues exactly
one ORDER BY scan capped at 10000 rows, reading back every returned
key (`min 10000 rows` of them when the table started empty). -/
theorem claim6_range_phase :
    (∀ ids : List Int, ids ≠ [] →
        autoRangeBounds ids =
          (ids.getD (rangeLoIndex ids.length) 0, ids.getD (rangeHiIndex ids.length) 0)) ∧
    autoRangeBounds [] = (0, 0) ∧
    (∀ (env : Env) (rows lookups : Int) (s : St) (r : Result) (s' : St),
      benchMySQLAuto env rows lookups s = (.ok r, s') →
      ∃ ids : List Int, ids.length = s.mysql.auto.length + rows.toNat ∧
        List.Sorted (· ≤ ·) ids ∧
        rangeCalls s'.log = rangeCalls s.log ++
          [Ev.call (SQLOp.selectIds "SELECT id FROM bench_auto ORDER BY id" ids),
           Ev.call (SQLOp.between "SELECT COUNT(*) FROM bench_auto WHERE id BETWEEN ? AND ?"
             (autoRangeBounds ids).1 (autoRangeBounds ids).2)]) ∧
    (∀ (env : Env) (rows lookups : Int) (s : St) (r : Result) (s' : St),
      benchPGAuto env rows lookups s = (.ok r, s') →
      ∃ ids : List Int, ids.length = s.pg.auto.length + rows.toNat ∧
        List.Sorted (· ≤ ·) ids ∧
        rangeCalls s'.log = rangeCalls s.log ++
          [Ev.call (SQLOp.selectIds "SELECT id FROM bench_auto ORDER BY id" ids),
           Ev.call (SQLOp.between "SELECT COUNT(*) FROM bench_auto WHERE id BETWEEN $1 AND $2"
             (autoRangeBounds ids).1 (autoRangeBounds ids).2)]) ∧
    (∀ (env : Env) (rows lookups : Int) (s : St) (r : Result) (s' : St),
      s.mysql.uuidChar = [] →
      benchMySQLUUIDChar env rows lookups s = (.ok r, s') →
      rangeCalls s'.log = rangeCalls s.log ++
        [Ev.call (SQLOp.orderLimit "SELECT id FROM bench_uuid_char ORDER BY id LIMIT 10000"
          10000 (min 10000 rows.toNat))]) ∧
    (∀ (env : Env) (rows lookups : Int) (s : St) (r : Result) (s' : St),
      s.mysql.uuidBin = [] →
      benchMySQLUUIDBin env rows lookups s = (.ok r, s') →
      rangeCalls s'.log = rangeCalls s.log ++
        [Ev.call (SQLOp.orderLimit "SELECT id FROM bench_uuid_bin ORDER BY id LIMIT 10000"
          10000 (min 10000 rows.toNat))]) ∧
    (∀ (env : Env) (rows lookups : Int) (s : St) (r : Result) (s' : St),
      s.pg.uuid = [] →
      benchPGUUID env rows lookups s = (.ok r, s') →
      rangeCalls s'.log = rangeCalls s.log ++
        [Ev.call (SQLOp.orderLimit "SELECT id FROM bench_uuid ORDER BY id LIMIT 10000"
          10000 (min 10000 rows.toNat))]) := by
  refine ⟨?_, rfl, ?_, ?_, ?_, ?_, ?_⟩
  · intro ids h
    unfold autoRangeBounds
    rw [if_pos (List.length_pos.mpr h)]
  · intro env rows lookups s r s' hc
    obtain ⟨ids, hlen, hsort, _, _, _, _, hrc⟩ := benchMySQLAuto_ok hc
    exact ⟨ids, hlen, hsort, hrc⟩
  · intro env rows lookups s r s' hc
    obtain ⟨ids, hlen, hsort, _, _, _, _, hrc⟩ := benchPGAuto_ok hc
    exact ⟨ids, hlen, hsort, hrc⟩
  · intro env rows lookups s r s' hemp hc
    obtain ⟨ids, _, _, _, _, _, hrc⟩ := benchMySQLUUIDChar_ok hc
    rw [hemp] at hrc
    simpa using hrc
  · intro env rows lookups s r s' hemp hc
    obtain ⟨ids, _, _, _, _, _, hrc⟩ := benchMySQLUUIDBin_ok hc
    rw [hemp] at hrc
    simpa using hrc
  · intro env rows lookups s r s' hemp hc
    obtain ⟨ids, _, _, _, _, _, hrc⟩ := benchPGUUID_ok hc
    rw [hemp] at hrc
    simpa using hrc

set_option maxHeartbeats 4000000 in
/-- Witness for C6: the range phase of a concrete fault-free one-row
MySQL auto-increment run. -/
theorem claim6_range_phase_witness :
    ∃ r s', benchMySQLAuto env0 1 1 st0 = (.ok r, s') ∧
      ∃ ids : List Int, ids.length = st0.mysql.auto.length + (1 : Int).toNat ∧
        List.Sorted (· ≤ ·) ids ∧
        rangeCalls s'.log = rangeCalls st0.log ++
          [Ev.call (SQLOp.selectIds "SELECT id FROM bench_auto ORDER BY id" ids),
           Ev.call (SQLOp.between "SELECT COUNT(*) FROM bench_auto WHERE id BETWEEN ? AND ?"
             (autoRangeBounds ids).1 (autoRangeBounds ids).2)] := by
  obtain ⟨r, s', h⟩ : ∃ r s', benchMySQLAuto env0 1 1 st0 = (.ok r, s') := ⟨_, _, rfl⟩
  exact ⟨r, s', h, claim6_range_phase.2.2.1 env0 1 1 st0 r s' h⟩
